import Mathlib

/-!
Verification of the Monitor Evaluation & Alarm Lifecycle Engine.

Shallow embedding of the anomaly-detection service (`src/services/anomaly.ts`)
together with its helper library (`src/utils/helpers.ts`), its cookie-backed
record store (`src/utils/storage.ts`) and the metric simulation generators
(`src/services/simulation.ts`).  JavaScript numbers are modelled as exact
rationals, ISO timestamp strings as opaque strings, and `Math.random()` /
`uuidv4()` as explicit input streams consumed in call order.
-/

namespace MediaNet

/-- Sensitivity setting of a monitor (`Sensitivity` in `src/types`). -/
inductive Sensitivity
  | Strict
  | Balanced
  | Loose
deriving DecidableEq, Repr

/-- Severity tier of an alarm (`AlarmSeverity`). -/
inductive AlarmSeverity
  | CRITICAL
  | HIGH
  | MEDIUM
  | LOW
deriving DecidableEq, Repr

/-- Boolean monitor state (`'OK' | 'IN_ALARM'` on `MonitorStateData.state`). -/
inductive MonitorStatus
  | OK
  | IN_ALARM
deriving DecidableEq, Repr

/-- Lifecycle state of an alarm (`'ACTIVE' | 'RESOLVED' | 'DISMISSED'`). -/
inductive AlarmState
  | ACTIVE
  | RESOLVED
  | DISMISSED
deriving DecidableEq, Repr

/-- How an alarm left the `ACTIVE` state (`resolutionMethod`). -/
inductive ResolutionMethod
  | USER_ACTION
  | AUTO_RESOLVED
  | DISMISSED
deriving DecidableEq, Repr

/-- Monitor kind (`'SIMPLE' | 'COMPOSITE' | 'GRANULAR'`). -/
inductive MonitorType
  | SIMPLE
  | COMPOSITE
  | GRANULAR
deriving DecidableEq, Repr

/-- `getSensitivityThreshold` from `src/utils/helpers.ts`. -/
def getSensitivityThreshold : Sensitivity → ℚ
  | .Strict => 0.15
  | .Balanced => 0.25
  | .Loose => 0.40

/-- `calculateDeviation` from `src/utils/helpers.ts`:
percentage deviation of `current` from `expected`, `0` when `expected == 0`. -/
def calculateDeviation (current expected : ℚ) : ℚ :=
  if expected = 0 then 0 else (current - expected) / expected * 100

/-- `isInAlarm` from `src/utils/helpers.ts`: breach test for one value. -/
def isInAlarm (current expected : ℚ) (sensitivity : Sensitivity) : Bool :=
  decide (|calculateDeviation current expected| / 100 > getSensitivityThreshold sensitivity)

/-- `calculateSeverity` from `src/utils/helpers.ts`: severity banding by
absolute deviation. -/
def calculateSeverity (deviation : ℚ) : AlarmSeverity :=
  if |deviation| ≥ 60 then .CRITICAL
  else if |deviation| ≥ 40 then .HIGH
  else if |deviation| ≥ 25 then .MEDIUM
  else .LOW

/-- JavaScript `x || d` for an optional string `x` (empty string is falsy). -/
def jsOrS (x : Option String) (d : String) : String :=
  match x with
  | some v => if v = "" then d else v
  | none => d

/-- JavaScript `x || d` for an optional number `x` (`0` is falsy). -/
def jsOrQ (x : Option ℚ) (d : ℚ) : ℚ :=
  match x with
  | some v => if v = 0 then d else v
  | none => d

/-- `compositeConfig` of a composite monitor: alarm when `n` of the last `m`
data points breach. -/
structure CompositeConfig where
  n : ℕ
  m : ℕ
deriving DecidableEq

/-- A `Monitor` record (`src/types`); only the fields the engine reads. -/
structure Monitor where
  id : String
  campaignId : String
  metricId : String
  metricName : String
  monitorType : MonitorType
  enabled : Bool
  sensitivity : Sensitivity
  compositeConfig : Option CompositeConfig
  granularDimensions : Option (List String)
deriving DecidableEq

/-- `CampaignVertical` (`src/types`). -/
inductive CampaignVertical
  | Ecommerce
  | Finance
  | SaaS
  | Travel
  | B2B
  | Healthcare
  | Education
deriving DecidableEq

/-- `CampaignObjective` (`src/types`). -/
inductive CampaignObjective
  | Performance
  | BrandAwareness
  | Video
  | AppInstall
deriving DecidableEq

/-- Campaign targeting configuration (devices and geos). -/
structure Targeting where
  devices : List String
  geos : List String
deriving DecidableEq

/-- A `Campaign` record; only the fields the engine reads. -/
structure Campaign where
  id : String
  name : String
  dailyBudget : ℚ
  sensitivity : Sensitivity
  vertical : CampaignVertical
  objective : CampaignObjective
  targeting : Targeting
deriving DecidableEq

/-- A stored `MetricValue` sample.  The ISO timestamp is modelled as a
rational epoch value, ordered the way `new Date(ts).getTime()` orders the
stored ISO strings. -/
structure MetricValue where
  campaignId : String
  metricId : String
  timestamp : ℚ
  value : ℚ
  dimensions : Option (List (String × String))
deriving DecidableEq

/-- One per-dimension sub-result of a granular evaluation. -/
structure GranularEntry where
  value : ℚ
  inAlarm : Bool
deriving DecidableEq

/-- `MonitorStateData`: the latest evaluation result of one monitor. -/
structure MonitorStateData where
  monitorId : String
  state : MonitorStatus
  currentValue : ℚ
  expectedValue : ℚ
  anomalyScore : ℚ
  enteredStateAt : String
  updatedAt : String
  dataPointsBreached : Option ℕ
  dimensions : Option (List (String × GranularEntry))
deriving DecidableEq

/-- An `Alarm` record.  The external `insights` enrichment payload (gemini
service, caught on failure and never blocking creation) is not modelled. -/
structure Alarm where
  id : String
  monitorId : String
  campaignId : String
  campaignName : String
  metricName : String
  severity : AlarmSeverity
  state : AlarmState
  triggeredAt : String
  currentValue : ℚ
  expectedValue : ℚ
  deviationPercent : ℚ
  dimensionalBreakdown : Option (List (String × GranularEntry))
  estimatedImpactUSD : ℚ
  resolvedAt : Option String
  resolutionMethod : Option ResolutionMethod
deriving DecidableEq

/-- The cookie-backed record store of `src/utils/storage.ts`: monitor states,
alarms and the stored metric samples.  The campaign / preference cookies are
not read by the engine. -/
structure Store where
  monitorStates : List MonitorStateData
  alarms : List Alarm
  metricValues : List MetricValue
deriving DecidableEq

/-- `getMonitorState` from `src/utils/storage.ts`: first stored state with
the given monitor id. -/
def getMonitorState (s : Store) (monitorId : String) : Option MonitorStateData :=
  s.monitorStates.find? (fun st => decide (st.monitorId = monitorId))

/-- The upsert performed by `saveMonitorState`: replace the first record with
the same monitor id, else append. -/
def upsertMonitorState : List MonitorStateData → MonitorStateData → List MonitorStateData
  | [], st => [st]
  | x :: xs, st => if x.monitorId = st.monitorId then st :: xs else x :: upsertMonitorState xs st

/-- `saveMonitorState` from `src/utils/storage.ts` (it stamps `updatedAt`
with the current time before storing). -/
def saveMonitorState (s : Store) (st : MonitorStateData) (now : String) : Store :=
  { s with monitorStates := upsertMonitorState s.monitorStates { st with updatedAt := now } }

/-- The upsert performed by `saveAlarm`: replace the first alarm with the
same id, else append. -/
def upsertAlarm : List Alarm → Alarm → List Alarm
  | [], a => [a]
  | x :: xs, a => if x.id = a.id then a :: xs else x :: upsertAlarm xs a

/-- `saveAlarm` from `src/utils/storage.ts`. -/
def saveAlarm (s : Store) (a : Alarm) : Store :=
  { s with alarms := upsertAlarm s.alarms a }

/-- Stable insertion step for the timestamp sort. -/
def insertByTs (v : MetricValue) : List MetricValue → List MetricValue
  | [] => [v]
  | x :: xs => if v.timestamp < x.timestamp then v :: x :: xs else x :: insertByTs v xs

/-- Stable sort by timestamp, as `values.sort((a, b) => time(a) − time(b))`. -/
def sortByTs : List MetricValue → List MetricValue
  | [] => []
  | x :: xs => insertByTs x (sortByTs xs)

/-- `getMetricValuesByCampaignAndMetric` from `src/utils/storage.ts`:
filter by campaign and metric, sorted by timestamp ascending. -/
def getMetricValuesByCampaignAndMetric (s : Store) (campaignId metricId : String) :
    List MetricValue :=
  sortByTs (s.metricValues.filter
    (fun v => decide (v.campaignId = campaignId ∧ v.metricId = metricId)))

/-- JavaScript `array.slice(start)` for a possibly negative `start`. -/
def jsSliceFrom (l : List α) (start : ℤ) : List α :=
  if start < 0 then l.drop (l.length - (-start).toNat) else l.drop start.toNat

/-- `calculateEstimatedImpact` from `src/services/anomaly.ts`: metric-family
specific financial impact of a deviation, from the campaign daily budget. -/
def calculateEstimatedImpact (campaign : Campaign) (monitor : Monitor)
    (deviationPercent : ℚ) : ℚ :=
  let dailyBudget := campaign.dailyBudget
  if monitor.metricId = "cpa" then
    if deviationPercent > 0 then dailyBudget * |deviationPercent| / 100 else 0
  else if monitor.metricId = "ctr" ∨ monitor.metricId = "cvr" then
    if deviationPercent < 0 then dailyBudget * |deviationPercent| * 0.5 / 100 else 0
  else if monitor.metricId = "impressions" ∨ monitor.metricId = "clicks" then
    if deviationPercent < 0 then dailyBudget * |deviationPercent| * 0.3 / 100 else 0
  else if monitor.metricId = "spend" then
    dailyBudget * |deviationPercent| / 100
  else if monitor.metricId = "invalid_traffic" then
    if deviationPercent > 0 then dailyBudget * |deviationPercent| / 100 else 0
  else
    dailyBudget * |deviationPercent| * 0.2 / 100

/-- The record update `resolveAlarm` applies to an `ACTIVE` alarm. -/
def resolveAlarmUpd (method : ResolutionMethod) (now : String) (a : Alarm) : Alarm :=
  { a with state := .RESOLVED, resolvedAt := some now, resolutionMethod := some method }

/-- The record update `dismissAlarm` applies to an `ACTIVE` alarm. -/
def dismissAlarmUpd (now : String) (a : Alarm) : Alarm :=
  { a with state := .DISMISSED, resolvedAt := some now,
           resolutionMethod := some .DISMISSED }

/-- List-level effect of `resolveAlarm`: the first alarm with the given id is
updated when `ACTIVE`, everything else is untouched. -/
def resolveAlarmList (alarmId : String) (method : ResolutionMethod) (now : String) :
    List Alarm → List Alarm
  | [] => []
  | a :: rest =>
    if a.id = alarmId then
      (if a.state = .ACTIVE then resolveAlarmUpd method now a :: rest else a :: rest)
    else a :: resolveAlarmList alarmId method now rest

/-- List-level effect of `dismissAlarm`. -/
def dismissAlarmList (alarmId : String) (now : String) : List Alarm → List Alarm
  | [] => []
  | a :: rest =>
    if a.id = alarmId then
      (if a.state = .ACTIVE then dismissAlarmUpd now a :: rest else a :: rest)
    else a :: dismissAlarmList alarmId now rest

/-- `resolveAlarm` from `src/services/anomaly.ts`. -/
def resolveAlarm (s : Store) (alarmId : String) (method : ResolutionMethod)
    (now : String) : Store :=
  { s with alarms := resolveAlarmList alarmId method now s.alarms }

/-- `dismissAlarm` from `src/services/anomaly.ts`. -/
def dismissAlarm (s : Store) (alarmId : String) (now : String) : Store :=
  { s with alarms := dismissAlarmList alarmId now s.alarms }

/-- Lookup an association list by string key (JS object property access). -/
def assocFind? (key : String) (l : List (String × β)) : Option β :=
  (l.find? (fun p => decide (p.1 = key))).map (·.2)

/-- The `BASELINE_VALUES` table of `src/services/simulation.ts`, one row per
vertical and objective, giving each metric its baseline. -/
def baselineRow : CampaignVertical → CampaignObjective → List (String × ℚ)
  | .Ecommerce, .Performance =>
    [("impressions", 100000), ("clicks", 2500), ("conversions", 100), ("ctr", 2.5),
     ("cvr", 4.0), ("cpa", 30), ("cpm", 5), ("cpc", 0.5), ("viewability", 75),
     ("invalid_traffic", 2), ("spend", 1250)]
  | .Ecommerce, .BrandAwareness =>
    [("impressions", 500000), ("clicks", 5000), ("conversions", 50), ("ctr", 1.0),
     ("cvr", 1.0), ("cpm", 10), ("viewability", 80)]
  | .Ecommerce, .Video =>
    [("impressions", 200000), ("clicks", 4000), ("ctr", 2.0), ("cpm", 15),
     ("viewability", 70)]
  | .Ecommerce, .AppInstall =>
    [("impressions", 150000), ("clicks", 3000), ("conversions", 150), ("ctr", 2.0),
     ("cvr", 5.0), ("cpa", 25)]
  | .Finance, .Performance =>
    [("impressions", 50000), ("clicks", 250), ("conversions", 5), ("ctr", 0.5),
     ("cvr", 2.0), ("cpa", 100), ("cpm", 12), ("cpc", 2.0), ("viewability", 80),
     ("invalid_traffic", 1)]
  | .Finance, .BrandAwareness =>
    [("impressions", 300000), ("clicks", 1500), ("ctr", 0.5), ("cpm", 15),
     ("viewability", 85)]
  | .Finance, .Video =>
    [("impressions", 100000), ("clicks", 700), ("ctr", 0.7), ("cpm", 20)]
  | .Finance, .AppInstall =>
    [("impressions", 80000), ("clicks", 600), ("conversions", 30), ("ctr", 0.75),
     ("cvr", 5.0), ("cpa", 80)]
  | .SaaS, .Performance =>
    [("impressions", 75000), ("clicks", 1200), ("conversions", 36), ("ctr", 1.6),
     ("cvr", 3.0), ("cpa", 50), ("cpm", 8), ("cpc", 1.5), ("viewability", 78)]
  | .SaaS, .BrandAwareness =>
    [("impressions", 250000), ("clicks", 2500), ("ctr", 1.0), ("cpm", 12)]
  | .SaaS, .Video =>
    [("impressions", 150000), ("clicks", 2000), ("ctr", 1.3), ("cpm", 18)]
  | .SaaS, .AppInstall =>
    [("impressions", 100000), ("clicks", 1500), ("conversions", 60), ("ctr", 1.5),
     ("cvr", 4.0), ("cpa", 40)]
  | .Travel, .Performance =>
    [("impressions", 120000), ("clicks", 2400), ("conversions", 60), ("ctr", 2.0),
     ("cvr", 2.5), ("cpa", 40), ("cpm", 6)]
  | .Travel, .BrandAwareness =>
    [("impressions", 400000), ("clicks", 4000), ("ctr", 1.0), ("cpm", 10)]
  | .Travel, .Video =>
    [("impressions", 200000), ("clicks", 3000), ("ctr", 1.5), ("cpm", 14)]
  | .Travel, .AppInstall =>
    [("impressions", 150000), ("clicks", 2250), ("conversions", 90), ("ctr", 1.5),
     ("cvr", 4.0), ("cpa", 35)]
  | .B2B, .Performance =>
    [("impressions", 30000), ("clicks", 450), ("conversions", 15), ("ctr", 1.5),
     ("cvr", 3.3), ("cpa", 120), ("cpm", 15), ("cpc", 4.0)]
  | .B2B, .BrandAwareness =>
    [("impressions", 150000), ("clicks", 1500), ("ctr", 1.0), ("cpm", 18)]
  | .B2B, .Video =>
    [("impressions", 80000), ("clicks", 1000), ("ctr", 1.25), ("cpm", 22)]
  | .B2B, .AppInstall =>
    [("impressions", 50000), ("clicks", 750), ("conversions", 25), ("ctr", 1.5),
     ("cvr", 3.3), ("cpa", 100)]
  | .Healthcare, .Performance =>
    [("impressions", 60000), ("clicks", 900), ("conversions", 30), ("ctr", 1.5),
     ("cvr", 3.3), ("cpa", 60), ("cpm", 10)]
  | .Healthcare, .BrandAwareness =>
    [("impressions", 200000), ("clicks", 2000), ("ctr", 1.0), ("cpm", 14)]
  | .Healthcare, .Video =>
    [("impressions", 120000), ("clicks", 1500), ("ctr", 1.25), ("cpm", 18)]
  | .Healthcare, .AppInstall =>
    [("impressions", 80000), ("clicks", 1200), ("conversions", 48), ("ctr", 1.5),
     ("cvr", 4.0), ("cpa", 50)]
  | .Education, .Performance =>
    [("impressions", 80000), ("clicks", 1400), ("conversions", 56), ("ctr", 1.75),
     ("cvr", 4.0), ("cpa", 35), ("cpm", 7)]
  | .Education, .BrandAwareness =>
    [("impressions", 300000), ("clicks", 3000), ("ctr", 1.0), ("cpm", 11)]
  | .Education, .Video =>
    [("impressions", 180000), ("clicks", 2500), ("ctr", 1.4), ("cpm", 16)]
  | .Education, .AppInstall =>
    [("impressions", 120000), ("clicks", 1800), ("conversions", 72), ("ctr", 1.5),
     ("cvr", 4.0), ("cpa", 42)]

/-- `baseline[metricId] || 100` on the campaign's baseline row. -/
def baselineValue (campaign : Campaign) (metricId : String) : ℚ :=
  jsOrQ (assocFind? metricId (baselineRow campaign.vertical campaign.objective)) 100

/-- External effect streams consumed by the engine: the successive results of
`Math.random()` (`rand`, indexed in call order) and of `uuidv4()` (`ids`). -/
structure Eff where
  rand : ℕ → ℚ
  ids : ℕ → String

/-- The wall clock at evaluation time: `new Date().toISOString()`, plus the
`getHours()` / `getDay()` values the generators read from the same instant. -/
structure Clock where
  nowIso : String
  hour : ℕ
  dayOfWeek : ℕ

/-- `getHourMultiplier` from `src/services/simulation.ts`. -/
def getHourMultiplier (hour : ℕ) (isB2B : Bool) : ℚ :=
  if isB2B then
    if 9 ≤ hour ∧ hour ≤ 17 then 1.2 else if hour < 6 then 0.3 else 0.7
  else
    if 19 ≤ hour ∧ hour ≤ 22 then 1.3 else if hour < 6 then 0.4 else 1.0

/-- `getDayMultiplier` from `src/services/simulation.ts`. -/
def getDayMultiplier (dayOfWeek : ℕ) (isB2B : Bool) : ℚ :=
  if isB2B then
    if dayOfWeek = 0 ∨ dayOfWeek = 6 then 0.2 else 1.0
  else
    if dayOfWeek = 0 ∨ dayOfWeek = 6 then 1.1 else 1.0

/-- `generateValue` from `src/services/simulation.ts`; `draw` is the
`Math.random()` result it consumes for its noise factor. -/
def generateValue (baseValue : ℚ) (hour dayOfWeek : ℕ) (isB2B : Bool)
    (noiseLevel : ℚ) (draw : ℚ) : ℚ :=
  baseValue * getHourMultiplier hour isB2B * getDayMultiplier dayOfWeek isB2B *
    (1 + (draw - 0.5) * 2 * noiseLevel)

/-- Sum of `charCodeAt` over a string (the anomaly seed computation). -/
def charCodeSum (s : String) : ℕ :=
  s.data.foldl (fun acc c => acc + c.toNat) 0

/-- `shouldGenerateAnomaly` from `src/services/simulation.ts`; `hoursAgo` is
the precomputed `(Date.now() − timestamp) / 3600000`, which is `0` when it is
called on the current instant. -/
def shouldGenerateAnomaly (metricKey : String) (hoursAgo : ℚ) : Bool :=
  let seed := charCodeSum metricKey
  if ((seed % 100 : ℕ) : ℚ) / 100 > 0.2 then false else decide (hoursAgo ≤ 12)

/-- `applyAnomaly` from `src/services/simulation.ts`: the anomaly type is
seeded by the key; types 0 and 1 consume one random draw. -/
def applyAnomaly (value : ℚ) (metricKey : String) (eff : Eff) (ri : ℕ) : ℚ × ℕ :=
  let seed := charCodeSum metricKey
  match seed % 3 with
  | 0 => (value * (0.4 + eff.rand ri * 0.2), ri + 1)
  | 1 => (value * (1.5 + eff.rand ri * 0.5), ri + 1)
  | _ => (value * 0.95, ri)

/-- `generateExpectedValue` from `src/services/simulation.ts`: the baseline
with a random −10%..+10% adjustment (consumes one draw). -/
def generateExpectedValue (eff : Eff) (campaign : Campaign) (metricId : String)
    (ri : ℕ) : ℚ × ℕ :=
  (baselineValue campaign metricId * (0.9 + eff.rand ri * 0.2), ri + 1)

/-- `campaign.vertical === 'B2B' || campaign.vertical === 'Healthcare'`. -/
def isB2BCampaign (campaign : Campaign) : Bool :=
  decide (campaign.vertical = .B2B ∨ campaign.vertical = .Healthcare)

/-- `generateCurrentMetricValue` from `src/services/simulation.ts`, evaluated
at the current instant (so the anomaly window test sees `hoursAgo = 0`). -/
def generateCurrentMetricValue (eff : Eff) (campaign : Campaign) (metricId : String)
    (expectedValue : ℚ) (clock : Clock) (ri : ℕ) : ℚ × ℕ :=
  let value := generateValue expectedValue clock.hour clock.dayOfWeek
    (isB2BCampaign campaign) 0.15 (eff.rand ri)
  let ri1 := ri + 1
  let vr := if shouldGenerateAnomaly (metricId ++ campaign.id) 0 then
      applyAnomaly value (metricId ++ campaign.id) eff ri1
    else (value, ri1)
  (max 0 vr.1, vr.2)

/-- `evaluateCompositeCondition` from `src/services/anomaly.ts`: count how
many of the last `m` samples (stored history plus the current sample) breach
the threshold against the current expected value. -/
def evaluateCompositeCondition (monitor : Monitor) (campaign : Campaign) (s : Store)
    (currentValue expectedValue : ℚ) : Bool × ℕ :=
  match monitor.compositeConfig with
  | none => (false, 0)
  | some cfg =>
    let historicalValues := jsSliceFrom
      (getMetricValuesByCampaignAndMetric s campaign.id monitor.metricId)
      (-(cfg.m : ℤ) + 1)
    let allValues := historicalValues.map (·.value) ++ [currentValue]
    let window := jsSliceFrom allValues (-(cfg.m : ℤ))
    let breachCount :=
      (window.filter (fun v => isInAlarm v expectedValue monitor.sensitivity)).length
    (decide (breachCount ≥ cfg.n), breachCount)

/-- JS object property assignment on an association list: overwrite the first
binding of the key in place, else append. -/
def assocUpsert (key : String) (val : β) : List (String × β) → List (String × β)
  | [] => [(key, val)]
  | p :: rest => if p.1 = key then (key, val) :: rest else p :: assocUpsert key val rest

/-- `evaluateGranularDimensions` from `src/services/anomaly.ts`: per device
and geo, a random sub-value and random breach flag (three draws each). -/
def evaluateGranularDimensions (eff : Eff) (monitor : Monitor) (campaign : Campaign)
    (ri : ℕ) : List (String × GranularEntry) × ℕ :=
  match monitor.granularDimensions with
  | none => ([], ri)
  | some dims =>
    dims.foldl (fun acc dimension =>
      let acc1 := if dimension = "device" then
          campaign.targeting.devices.foldl (fun acc2 device =>
            let bv := generateExpectedValue eff campaign monitor.metricId acc2.2
            let value := bv.1 * (0.8 + eff.rand bv.2 * 0.4)
            let entry : GranularEntry := ⟨value, decide (eff.rand (bv.2 + 1) > 0.7)⟩
            (assocUpsert ("device_" ++ device) entry acc2.1, bv.2 + 2)) acc
        else acc
      if dimension = "geo" then
          campaign.targeting.geos.foldl (fun acc2 geo =>
            let bv := generateExpectedValue eff campaign monitor.metricId acc2.2
            let value := bv.1 * (0.8 + eff.rand bv.2 * 0.4)
            let entry : GranularEntry := ⟨value, decide (eff.rand (bv.2 + 1) > 0.7)⟩
            (assocUpsert ("geo_" ++ geo) entry acc2.1, bv.2 + 2)) acc1
      else acc1) (([] : List (String × GranularEntry)), ri)

/-- `previousState?.state === 'IN_ALARM'` for the stored state of a monitor. -/
def monIsInAlarmB (s : Store) (monitorId : String) : Bool :=
  match getMonitorState s monitorId with
  | some p => decide (p.state = .IN_ALARM)
  | none => false

/-- The alarm snapshot `createAlarmFromMonitor` builds from a monitor state. -/
def builtAlarm (monitor : Monitor) (campaign : Campaign) (st : MonitorStateData)
    (alarmId : String) : Alarm :=
  let deviation := calculateDeviation st.currentValue st.expectedValue
  let severity := calculateSeverity deviation
  { id := alarmId
    monitorId := monitor.id
    campaignId := campaign.id
    campaignName := campaign.name
    metricName := monitor.metricName
    severity := severity
    state := .ACTIVE
    triggeredAt := st.enteredStateAt
    currentValue := st.currentValue
    expectedValue := st.expectedValue
    deviationPercent := deviation
    dimensionalBreakdown := st.dimensions
    estimatedImpactUSD := calculateEstimatedImpact campaign monitor deviation
    resolvedAt := none
    resolutionMethod := none }

/-- `createAlarmFromMonitor` from `src/services/anomaly.ts`: build the alarm
snapshot and store it.  The awaited insight enrichment is external and its
failure is caught, so it is not part of the store transition. -/
def createAlarmFromMonitor (monitor : Monitor) (campaign : Campaign)
    (st : MonitorStateData) (alarmId : String) (s : Store) : Alarm × Store :=
  (builtAlarm monitor campaign st alarmId,
    saveAlarm s (builtAlarm monitor campaign st alarmId))

/-- Result of one `evaluateMonitor` call: the new state, the created alarm if
any, the store after the call, and the random / id stream positions. -/
structure EvalResult where
  state : MonitorStateData
  alarm : Option Alarm
  store : Store
  ri : ℕ
  ii : ℕ

/-- The new `MonitorStateData` computed by `evaluateMonitor` from the current
and expected values (classification, `enteredStateAt` bookkeeping, composite
override, granular sub-results), paired with the advanced random stream
position. -/
def computeNewState (eff : Eff) (monitor : Monitor) (campaign : Campaign)
    (clock : Clock) (s : Store) (currentValue expectedValue : ℚ)
    (ri : ℕ) : MonitorStateData × ℕ :=
  let deviation := calculateDeviation currentValue expectedValue
  let inAlarm := isInAlarm currentValue expectedValue monitor.sensitivity
  let anomalyScore := |deviation| / 100 / getSensitivityThreshold monitor.sensitivity
  let timestamp := clock.nowIso
  let previousState := getMonitorState s monitor.id
  let wasInAlarm := monIsInAlarmB s monitor.id
  let newState : MonitorStateData :=
    { monitorId := monitor.id
      state := if inAlarm then .IN_ALARM else .OK
      currentValue := currentValue
      expectedValue := expectedValue
      anomalyScore := anomalyScore
      enteredStateAt := if inAlarm ∧ ¬wasInAlarm then timestamp
        else jsOrS (previousState.map (·.enteredStateAt)) timestamp
      updatedAt := timestamp
      dataPointsBreached := none
      dimensions := none }
  let newState1 := if monitor.monitorType = .COMPOSITE ∧ monitor.compositeConfig.isSome then
      let bc := evaluateCompositeCondition monitor campaign s currentValue expectedValue
      { newState with dataPointsBreached := some bc.2,
                      state := if bc.1 then .IN_ALARM else .OK }
    else newState
  let gr := if monitor.monitorType = .GRANULAR ∧ monitor.granularDimensions.isSome then
      let dr := evaluateGranularDimensions eff monitor campaign ri
      (some dr.1, dr.2)
    else ((none : Option (List (String × GranularEntry))), ri)
  ({ newState1 with dimensions := gr.1 }, gr.2)

/-- Body of `evaluateMonitor` from `src/services/anomaly.ts` once the current
and expected values have been produced: compute the new state, persist it,
and create an alarm exactly on a transition into `IN_ALARM`. -/
def evalWithValues (eff : Eff) (monitor : Monitor) (campaign : Campaign)
    (clock : Clock) (s : Store) (currentValue expectedValue : ℚ)
    (ri ii : ℕ) : EvalResult :=
  let ns := computeNewState eff monitor campaign clock s currentValue expectedValue ri
  let wasInAlarm := monIsInAlarmB s monitor.id
  let s1 := saveMonitorState s ns.1 clock.nowIso
  if ns.1.state = .IN_ALARM ∧ wasInAlarm = false then
    let ar := createAlarmFromMonitor monitor campaign ns.1 (eff.ids ii) s1
    { state := ns.1, alarm := some ar.1, store := ar.2, ri := ns.2, ii := ii + 1 }
  else
    { state := ns.1, alarm := none, store := s1, ri := ns.2, ii := ii }

/-- `evaluateMonitor` from `src/services/anomaly.ts`: generate the current
value (with `0` passed as its expected-value argument, as the source does)
and the expected value, then evaluate. -/
def evaluateMonitor (eff : Eff) (monitor : Monitor) (campaign : Campaign)
    (clock : Clock) (s : Store) (ri ii : ℕ) : EvalResult :=
  let cv := generateCurrentMetricValue eff campaign monitor.metricId 0 clock ri
  let ev := generateExpectedValue eff campaign monitor.metricId cv.2
  evalWithValues eff monitor campaign clock s cv.1 ev.1 ev.2 ii

/-- `autoResolveAlarms` from `src/services/anomaly.ts`: when the state is OK,
resolve every currently active alarm of the monitor via `resolveAlarm`. -/
def autoResolveAlarms (monitor : Monitor) (st : MonitorStateData) (s : Store)
    (now : String) : Store :=
  if st.state = .OK then
    (s.alarms.filter
        (fun a => decide (a.monitorId = monitor.id) && decide (a.state = .ACTIVE))).foldl
      (fun acc a => resolveAlarm acc a.id .AUTO_RESOLVED now) s
  else s

/-- Pointwise effect of auto-resolution on one alarm record: an active alarm
of the monitor becomes auto-resolved, everything else is untouched. -/
def autoResolveUpd (mid : String) (now : String) (b : Alarm) : Alarm :=
  if b.monitorId = mid ∧ b.state = .ACTIVE
  then resolveAlarmUpd .AUTO_RESOLVED now b else b

/-- Accumulator of the `evaluateAllMonitors` loop. -/
structure BatchAcc where
  states : List MonitorStateData
  newAlarms : List Alarm
  store : Store
  ri : ℕ
  ii : ℕ

/-- One iteration of the `evaluateAllMonitors` loop: skip disabled monitors,
evaluate, collect the state and any new alarm, then auto-resolve. -/
def stepMonitor (eff : Eff) (campaign : Campaign) (clock : Clock)
    (acc : BatchAcc) (monitor : Monitor) : BatchAcc :=
  if monitor.enabled = false then acc
  else
    let r := evaluateMonitor eff monitor campaign clock acc.store acc.ri acc.ii
    { states := acc.states ++ [r.state]
      newAlarms := acc.newAlarms ++ r.alarm.toList
      store := autoResolveAlarms monitor r.state r.store clock.nowIso
      ri := r.ri
      ii := r.ii }

/-- `evaluateAllMonitors` from `src/services/anomaly.ts`. -/
def evaluateAllMonitors (eff : Eff) (campaign : Campaign) (monitors : List Monitor)
    (clock : Clock) (s : Store) (ri ii : ℕ) : BatchAcc :=
  monitors.foldl (stepMonitor eff campaign clock) ⟨[], [], s, ri, ii⟩

/-- The exposed engine operations (spec section 6), acting on the record
store.  Each operation carries its own effect streams and clock. -/
inductive EngineOp
  | evalMonitor (eff : Eff) (monitor : Monitor) (campaign : Campaign) (clock : Clock)
  | evalAll (eff : Eff) (campaign : Campaign) (monitors : List Monitor) (clock : Clock)
  | resolve (alarmId : String) (method : ResolutionMethod) (now : String)
  | dismiss (alarmId : String) (now : String)

/-- Store transition of one engine operation. -/
def applyOp (s : Store) : EngineOp → Store
  | .evalMonitor eff monitor campaign clock =>
    (evaluateMonitor eff monitor campaign clock s 0 0).store
  | .evalAll eff campaign monitors clock =>
    (evaluateAllMonitors eff campaign monitors clock s 0 0).store
  | .resolve alarmId method now => resolveAlarm s alarmId method now
  | .dismiss alarmId now => dismissAlarm s alarmId now

/-- Run a sequence of engine operations. -/
def runOps (s : Store) (ops : List EngineOp) : Store :=
  ops.foldl applyOp s

/-- Whether an operation is a bare `evaluateMonitor` call (not routed through
the batch loop and its auto-resolve step). -/
def EngineOp.isBareEval : EngineOp → Bool
  | .evalMonitor _ _ _ _ => true
  | _ => false

/-- Freshness of the uuid stream of an operation with respect to a store: the
generated alarm ids are pairwise distinct and unused.  This models the
uniqueness of `uuidv4()` results. -/
def opFresh (s : Store) : EngineOp → Prop
  | .evalMonitor eff _ _ _ =>
    Function.Injective eff.ids ∧ ∀ j, eff.ids j ∉ s.alarms.map (·.id)
  | .evalAll eff _ _ _ =>
    Function.Injective eff.ids ∧ ∀ j, eff.ids j ∉ s.alarms.map (·.id)
  | _ => True

/-- A run of engine operations in which every evaluation operation draws
fresh uuids with respect to the store it runs against. -/
inductive GoodOps : Store → List EngineOp → Prop
  | nil (s : Store) : GoodOps s []
  | cons (s : Store) (op : EngineOp) (ops : List EngineOp) :
      opFresh s op → GoodOps (applyOp s op) ops → GoodOps s (op :: ops)

/-- Number of `ACTIVE` alarms of one monitor in the store. -/
def activeCount (s : Store) (monitorId : String) : ℕ :=
  (s.alarms.filter
    (fun a => decide (a.monitorId = monitorId) && decide (a.state = .ACTIVE))).length

/-- The engine invariant: alarm ids and stored states are duplicate-free,
every monitor has at most one active alarm, and a monitor whose stored state
is not `IN_ALARM` has none. -/
def Inv (s : Store) : Prop :=
  (s.alarms.map (·.id)).Nodup ∧ (s.monitorStates.map (·.monitorId)).Nodup ∧
    ∀ m : String, activeCount s m ≤ 1 ∧ (monIsInAlarmB s m = false → activeCount s m = 0)

/-- Modelled from the spec: the metric source (spec section 6) is an external
collaborator whose `currentValue` / `expectedValue` reads may fail (spec
section 7); the in-repo generators never do.  This is `evaluateMonitor` with
the two generator calls replaced by fallible reads, in source order; a failed
read propagates before any store write. -/
def evaluateMonitorE (eff : Eff)
    (readCurrent readExpected : Campaign → String → Except String ℚ)
    (monitor : Monitor) (campaign : Campaign) (clock : Clock) (s : Store)
    (ri ii : ℕ) : Except String EvalResult :=
  match readCurrent campaign monitor.metricId with
  | .error e => .error e
  | .ok currentValue =>
    match readExpected campaign monitor.metricId with
    | .error e => .error e
    | .ok expectedValue =>
      .ok (evalWithValues eff monitor campaign clock s currentValue expectedValue ri ii)

/-- Modelled from the spec: the `evaluateAllMonitors` loop over a fallible
metric source.  The source loop (`src/services/anomaly.ts`) awaits each
`evaluateMonitor` with no try/catch, so a rejection aborts the remaining
iterations; writes already committed to the store persist, which the error
value records. -/
def evaluateAllMonitorsE (eff : Eff)
    (readCurrent readExpected : Campaign → String → Except String ℚ)
    (campaign : Campaign) (clock : Clock) :
    List Monitor → BatchAcc → Except (String × Store) BatchAcc
  | [], acc => .ok acc
  | monitor :: rest, acc =>
    if monitor.enabled = false then
      evaluateAllMonitorsE eff readCurrent readExpected campaign clock rest acc
    else
      match evaluateMonitorE eff readCurrent readExpected monitor campaign clock
          acc.store acc.ri acc.ii with
      | .error e => .error (e, acc.store)
      | .ok r =>
        evaluateAllMonitorsE eff readCurrent readExpected campaign clock rest
          { states := acc.states ++ [r.state]
            newAlarms := acc.newAlarms ++ r.alarm.toList
            store := autoResolveAlarms monitor r.state r.store clock.nowIso
            ri := r.ri
            ii := r.ii }

/-- Last `k` elements of a list (specification-side helper). -/
def takeLast (k : ℕ) (l : List α) : List α :=
  l.drop (l.length - k)

/-- The sample window the spec describes for a composite monitor: the last
`m − 1` stored historical samples for the metric followed by the current
sample. -/
def compositeWindow (monitor : Monitor) (campaign : Campaign) (s : Store)
    (currentValue : ℚ) (m : ℕ) : List ℚ :=
  takeLast (m - 1)
    ((getMetricValuesByCampaignAndMetric s campaign.id monitor.metricId).map (·.value))
    ++ [currentValue]

/-- Number of samples of a window that individually breach the threshold
against the given expected value. -/
def breachCountIn (window : List ℚ) (expectedValue : ℚ) (sensitivity : Sensitivity) : ℕ :=
  (window.filter (fun v => isInAlarm v expectedValue sensitivity)).length

/-- Concrete campaign used in the concrete scenarios: E-commerce /
Performance, daily budget 1000, balanced sensitivity. -/
def campaignC1 : Campaign :=
  { id := "c1", name := "Campaign One", dailyBudget := 1000,
    sensitivity := .Balanced, vertical := .Ecommerce, objective := .Performance,
    targeting := ⟨["desktop"], ["US"]⟩ }

/-- Concrete simple CPA monitor of `campaignC1`. -/
def cpaMonitor : Monitor :=
  { id := "m", campaignId := "c1", metricId := "cpa", metricName := "CPA",
    monitorType := .SIMPLE, enabled := true, sensitivity := .Balanced,
    compositeConfig := none, granularDimensions := none }

/-- Concrete composite CPA monitor (2 of 3) with the same monitor id. -/
def cpaCompositeMonitor : Monitor :=
  { id := "m", campaignId := "c1", metricId := "cpa",
    metricName := "CPA (Composite)", monitorType := .COMPOSITE, enabled := true,
    sensitivity := .Balanced, compositeConfig := some ⟨2, 3⟩,
    granularDimensions := none }

/-- Concrete simple CTR monitor of `campaignC1`. -/
def ctrMonitor : Monitor :=
  { id := "m2", campaignId := "c1", metricId := "ctr", metricName := "CTR",
    monitorType := .SIMPLE, enabled := true, sensitivity := .Balanced,
    compositeConfig := none, granularDimensions := none }

/-- Effect streams with a constant random draw and a constant uuid. -/
def effA (q : ℚ) (idName : String) : Eff :=
  ⟨fun _ => q, fun _ => idName⟩

/-- An injective uuid stream: the j-th id is the string of j letters `a`. -/
def natId (j : ℕ) : String :=
  String.mk (List.replicate j 'a')

/-- Effect streams with a constant random draw and the injective uuid
stream `natId`. -/
def effNat (q : ℚ) : Eff :=
  ⟨fun _ => q, natId⟩

/-- A clock fixture at noon on a Wednesday with the given ISO string. -/
def clockAt (iso : String) : Clock :=
  ⟨iso, 12, 3⟩

/-- Effect streams whose random draws differ from `effA 0 "x"` only at
indices the engine never consumes for a simple monitor. -/
def effB : Eff :=
  ⟨fun j => if 5 ≤ j then 99 else 0, fun _ => "x"⟩

/-- Stored CPA history for the window patterns: a breaching sample `130`
followed by a non-breaching sample `100` (against expected `100`, Balanced). -/
def storePatternTF : Store :=
  ⟨[], [], [⟨"c1", "cpa", 0, 130, none⟩, ⟨"c1", "cpa", 1, 100, none⟩]⟩

/-- A stored monitor state already in alarm since `"t0"`. -/
def priorInAlarmState : MonitorStateData :=
  ⟨"m", .IN_ALARM, 0, 27, 4, "t0", "t0", some 2, none⟩

/-- An active alarm with id `"b"` for monitor `"m"`. -/
def alarmB : Alarm :=
  ⟨"b", "m", "c1", "Campaign One", "CPA (Composite)", .HIGH, .ACTIVE, "t0",
    36, 30, 20, none, 0, none, none⟩

/-- An active alarm with id `"a1"` for monitor `"m"`. -/
def alarmA1 : Alarm :=
  ⟨"a1", "m", "c1", "Campaign One", "CPA", .HIGH, .ACTIVE, "t0",
    42, 30, 40, none, 400, none, none⟩

/-- Store holding only the single active alarm `alarmA1`. -/
def storeOneActive : Store :=
  ⟨[], [alarmA1], []⟩

/-- Store whose only record is the stored in-alarm state `priorInAlarmState`. -/
def storePriorAlarm : Store :=
  ⟨[priorInAlarmState], [], []⟩

/-- Metric-source read that fails for the CPA metric and returns 1 otherwise. -/
def rcFailCpa : Campaign → String → Except String ℚ :=
  fun _ metricId =>
    if metricId = "cpa" then .error "metric source unavailable" else .ok 1

/-- Metric-source read that always succeeds with value 1. -/
def readOk1 : Campaign → String → Except String ℚ :=
  fun _ _ => .ok 1

/-- The empty record store. -/
def emptyStore : Store :=
  ⟨[], [], []⟩

/-- A bare-evaluation sequence violating the at-most-one-active-alarm
invariant, starting from the empty store: the simple CPA monitor alarms
(current `0` against expected `27`), the composite variant of the same
monitor id comes back OK (1 of the required 2 breaches on the empty
history), and the simple monitor alarms again — with no auto-resolve step
between the bare calls. -/
def opsFlip : List EngineOp :=
  [ .evalMonitor (effA 0 "a1") cpaMonitor campaignC1 (clockAt "t1"),
    .evalMonitor (effA 0 "zz") cpaCompositeMonitor campaignC1 (clockAt "t2"),
    .evalMonitor (effA 0 "a3") cpaMonitor campaignC1 (clockAt "t3") ]

/-- Stored state after the first operation of `opsFlip`. -/
def stFlip1 : MonitorStateData :=
  ⟨"m", .IN_ALARM, 0, 27, 4, "t1", "t1", none, none⟩

/-- Alarm created by the first operation of `opsFlip`. -/
def alFlip1 : Alarm :=
  ⟨"a1", "m", "c1", "Campaign One", "CPA", .CRITICAL, .ACTIVE, "t1",
    0, 27, -100, none, 0, none, none⟩

/-- Stored state after the second operation of `opsFlip`. -/
def stFlip2 : MonitorStateData :=
  ⟨"m", .OK, 0, 27, 4, "t1", "t2", some 1, none⟩

/-- Stored state after the third operation of `opsFlip`. -/
def stFlip3 : MonitorStateData :=
  ⟨"m", .IN_ALARM, 0, 27, 4, "t3", "t3", none, none⟩

/-- Alarm created by the third operation of `opsFlip`. -/
def alFlip3 : Alarm :=
  ⟨"a3", "m", "c1", "Campaign One", "CPA", .CRITICAL, .ACTIVE, "t3",
    0, 27, -100, none, 0, none, none⟩

/-- Store after the first operation of `opsFlip`. -/
def storeFlip1 : Store :=
  ⟨[stFlip1], [alFlip1], []⟩

/-- Store after the second operation of `opsFlip`. -/
def storeFlip2 : Store :=
  ⟨[stFlip2], [alFlip1], []⟩

/-- Store after the third operation of `opsFlip`. -/
def storeFlip3 : Store :=
  ⟨[stFlip3], [alFlip1, alFlip3], []⟩

/-- Bookkeeping for the uuid draws of a batch run: every alarm id in the
store is either one of the initially present ids or a uuid already drawn. -/
def IdsOK (A : List String) (eff : Eff) (t : Store) (ii : ℕ) : Prop :=
  ∀ x ∈ t.alarms.map (fun a : Alarm => a.id), x ∈ A ∨ ∃ j, j < ii ∧ x = eff.ids j

/-- Store with one stored in-alarm state and one active alarm for monitor
`"m"`, used to exercise auto-resolution. -/
def storeC4 : Store :=
  ⟨[priorInAlarmState], [alarmB], []⟩

/-- C7: `isInAlarm(current, expected, sensitivity)` is true exactly when
`|deviation| / 100` exceeds the sensitivity tolerance, where the deviation is
`0` for a zero expected value and `(current − expected)/expected × 100`
otherwise; the tolerances are Strict `0.15`, Balanced `0.25`, Loose `0.40`;
with expected `100` under Balanced, current `126` breaches and `124` does not. -/
theorem isInAlarm_threshold_correct :
    (∀ current expected : ℚ, ∀ s : Sensitivity,
      isInAlarm current expected s = true ↔
        |if expected = 0 then (0 : ℚ) else (current - expected) / expected * 100| / 100
          > getSensitivityThreshold s)
    ∧ getSensitivityThreshold .Strict = 0.15
    ∧ getSensitivityThreshold .Balanced = 0.25
    ∧ getSensitivityThreshold .Loose = 0.40
    ∧ isInAlarm 126 100 .Balanced = true
    ∧ isInAlarm 124 100 .Balanced = false := by
  refine ⟨?_, rfl, rfl, rfl, ?_, ?_⟩
  · intro current expected s
    simp [isInAlarm, calculateDeviation]
  · norm_num [isInAlarm, calculateDeviation, getSensitivityThreshold]
  · norm_num [isInAlarm, calculateDeviation, getSensitivityThreshold]

/-- C8: `calculateSeverity` maps an absolute deviation of at least 60 to
Critical, at least 40 to High, at least 25 to Medium and anything smaller to
Low, with inclusive lower bounds; in particular 60 is Critical, 59.9 High,
39.9 Medium, 25 Medium and 24.9 Low. -/
theorem calculateSeverity_banding :
    (∀ d : ℚ, calculateSeverity d =
      if |d| ≥ 60 then .CRITICAL
      else if |d| ≥ 40 then .HIGH
      else if |d| ≥ 25 then .MEDIUM
      else .LOW)
    ∧ calculateSeverity 60 = .CRITICAL
    ∧ calculateSeverity 59.9 = .HIGH
    ∧ calculateSeverity 39.9 = .MEDIUM
    ∧ calculateSeverity 25 = .MEDIUM
    ∧ calculateSeverity 24.9 = .LOW := by
  refine ⟨fun d => rfl, ?_, ?_, ?_, ?_, ?_⟩ <;>
    · simp only [calculateSeverity]
      rw [abs_of_nonneg (by norm_num)]
      norm_num

/-- C9: `calculateEstimatedImpact` follows the metric-family rules of the
spec — cost metrics rising cost the full deviation share of the budget,
efficiency metrics falling half of it, volume metrics falling 0.3 of it,
spend both directions, invalid traffic rising, anything else 0.2 of it — it
is non-negative whenever the daily budget is, and the CPA scenario with
budget 1000 and deviation +40 yields 400. -/
theorem calculateEstimatedImpact_rules :
    (∀ (campaign : Campaign) (monitor : Monitor) (d : ℚ),
      0 ≤ campaign.dailyBudget →
      (monitor.metricId = "cpa" →
        calculateEstimatedImpact campaign monitor d =
          if 0 < d then campaign.dailyBudget * |d| / 100 else 0)
      ∧ (monitor.metricId = "ctr" ∨ monitor.metricId = "cvr" →
        calculateEstimatedImpact campaign monitor d =
          if d < 0 then campaign.dailyBudget * |d| * 0.5 / 100 else 0)
      ∧ (monitor.metricId = "impressions" ∨ monitor.metricId = "clicks" →
        calculateEstimatedImpact campaign monitor d =
          if d < 0 then campaign.dailyBudget * |d| * 0.3 / 100 else 0)
      ∧ (monitor.metricId = "spend" →
        calculateEstimatedImpact campaign monitor d =
          campaign.dailyBudget * |d| / 100)
      ∧ (monitor.metricId = "invalid_traffic" →
        calculateEstimatedImpact campaign monitor d =
          if 0 < d then campaign.dailyBudget * |d| / 100 else 0)
      ∧ (monitor.metricId ∉ (["cpa", "ctr", "cvr", "impressions", "clicks",
          "spend", "invalid_traffic"] : List String) →
        calculateEstimatedImpact campaign monitor d =
          campaign.dailyBudget * |d| * 0.2 / 100)
      ∧ 0 ≤ calculateEstimatedImpact campaign monitor d)
    ∧ calculateEstimatedImpact campaignC1 cpaMonitor 40 = 400 := by
  constructor
  · intro campaign monitor d hB
    have hprod : (0 : ℚ) ≤ campaign.dailyBudget * |d| :=
      mul_nonneg hB (abs_nonneg d)
    refine ⟨?_, ?_, ?_, ?_, ?_, ?_, ?_⟩
    · intro h; simp [calculateEstimatedImpact, h]
    · rintro (h | h) <;> simp [calculateEstimatedImpact, h]
    · rintro (h | h) <;> simp [calculateEstimatedImpact, h]
    · intro h; simp [calculateEstimatedImpact, h]
    · intro h; simp [calculateEstimatedImpact, h]
    · intro h
      simp only [List.mem_cons, List.not_mem_nil, or_false, not_or] at h
      obtain ⟨h1, h2, h3, h4, h5, h6, h7⟩ := h
      simp [calculateEstimatedImpact, h1, h2, h3, h4, h5, h6, h7]
    · unfold calculateEstimatedImpact
      split_ifs <;> linarith [hprod]
  · have h40 : |(40 : ℚ)| = 40 := abs_of_nonneg (by norm_num)
    norm_num [calculateEstimatedImpact, campaignC1, cpaMonitor, h40]

/-- If no alarm of the list both carries the id and is active, `dismissAlarm`
changes nothing. -/
theorem dismissAlarmList_noop (q now : String) (l : List Alarm)
    (h : ∀ a ∈ l, a.id = q → a.state ≠ .ACTIVE) :
    dismissAlarmList q now l = l := by
  induction l with
  | nil => rfl
  | cons a rest ih =>
    simp only [dismissAlarmList]
    by_cases hid : a.id = q
    · rw [if_pos hid, if_neg (h a (by simp) hid)]
    · rw [if_neg hid, ih (fun b hb hbq => h b (by simp [hb]) hbq)]

/-- If no alarm of the list both carries the id and is active, `resolveAlarm`
changes nothing. -/
theorem resolveAlarmList_noop (q : String) (method : ResolutionMethod)
    (now : String) (l : List Alarm)
    (h : ∀ a ∈ l, a.id = q → a.state ≠ .ACTIVE) :
    resolveAlarmList q method now l = l := by
  induction l with
  | nil => rfl
  | cons a rest ih =>
    simp only [resolveAlarmList]
    by_cases hid : a.id = q
    · rw [if_pos hid, if_neg (h a (by simp) hid)]
    · rw [if_neg hid, ih (fun b hb hbq => h b (by simp [hb]) hbq)]

/-- C10: on a store in which every alarm carrying the given id is not active
(in particular when no alarm has the id), `dismissAlarm` and `resolveAlarm`
leave the store unchanged; concretely, dismissing the single active alarm and
then dismissing it again leaves it `DISMISSED` with the original
`resolvedAt` of the first dismissal. -/
theorem dismiss_resolve_nonactive_noop :
    (∀ (s : Store) (alarmId : String) (method : ResolutionMethod) (now : String),
      (∀ a ∈ s.alarms, a.id = alarmId → a.state ≠ .ACTIVE) →
      dismissAlarm s alarmId now = s ∧ resolveAlarm s alarmId method now = s)
    ∧ dismissAlarm (dismissAlarm storeOneActive "a1" "t1") "a1" "t2"
        = dismissAlarm storeOneActive "a1" "t1"
    ∧ ((dismissAlarm storeOneActive "a1" "t1").alarms.find?
          (fun a => decide (a.id = "a1"))).map (fun a => (a.state, a.resolvedAt))
        = some (.DISMISSED, some "t1") := by
  refine ⟨?_, ?_, ?_⟩
  · intro s alarmId method now h
    constructor
    · show { s with alarms := dismissAlarmList alarmId now s.alarms } = s
      rw [dismissAlarmList_noop alarmId now s.alarms h]
    · show { s with alarms := resolveAlarmList alarmId method now s.alarms } = s
      rw [resolveAlarmList_noop alarmId method now s.alarms h]
  · rfl
  · rfl

/-- `slice(0)` is the whole array. -/
theorem jsSliceFrom_zero (l : List α) : jsSliceFrom l 0 = l := by
  simp [jsSliceFrom]

/-- `slice(-k)` for positive `k` keeps the last `k` elements. -/
theorem jsSliceFrom_neg (l : List α) (k : ℕ) (hk : 1 ≤ k) :
    jsSliceFrom l (-(k : ℤ)) = l.drop (l.length - k) := by
  have h1 : (-(k : ℤ)) < 0 := by omega
  rw [jsSliceFrom, if_pos h1, neg_neg, Int.toNat_natCast]

/-- `slice(-1)` keeps the last element range. -/
theorem jsSliceFrom_neg_one (l : List α) :
    jsSliceFrom l (-1) = l.drop (l.length - 1) := by
  rw [jsSliceFrom, if_pos (by norm_num)]
  norm_num

/-- With at least `m − 1` stored samples, the composite condition counts the
breaches over exactly the spec's window (last `m − 1` history values plus the
current sample) and fires at `n` of them. -/
theorem evaluateCompositeCondition_window (monitor : Monitor) (campaign : Campaign)
    (s : Store) (cv ev : ℚ) (cfg : CompositeConfig)
    (hcfg : monitor.compositeConfig = some cfg) (hm : 1 ≤ cfg.m)
    (hlen : cfg.m - 1 ≤
      (getMetricValuesByCampaignAndMetric s campaign.id monitor.metricId).length) :
    evaluateCompositeCondition monitor campaign s cv ev =
      (decide (cfg.n ≤ breachCountIn (compositeWindow monitor campaign s cv cfg.m)
          ev monitor.sensitivity),
        breachCountIn (compositeWindow monitor campaign s cv cfg.m)
          ev monitor.sensitivity) := by
  set L := getMetricValuesByCampaignAndMetric s campaign.id monitor.metricId with hL
  set X := L.map (·.value) with hX
  have hmapLen : X.length = L.length := List.length_map _ _
  simp only [evaluateCompositeCondition, hcfg, breachCountIn, compositeWindow,
    takeLast, ← hL, ← hX, ge_iff_le]
  rcases Nat.lt_or_ge cfg.m 2 with h2 | h2
  · have hm1 : cfg.m = 1 := by omega
    simp only [hm1, Nat.cast_one, neg_add_cancel, Nat.sub_self, Nat.sub_zero]
    rw [jsSliceFrom_zero, jsSliceFrom_neg_one]
    have h1 : (X ++ [cv]).length - 1 = X.length := by
      simp
    rw [h1, List.drop_left, List.drop_length, List.nil_append]
  · have hstep : (-(cfg.m : ℤ) + 1) = -((cfg.m - 1 : ℕ) : ℤ) := by
      push_cast [Nat.cast_sub hm]
      ring
    rw [hstep, jsSliceFrom_neg _ (cfg.m - 1) (by omega)]
    rw [List.map_drop]
    simp only [← hX, hmapLen]
    rw [jsSliceFrom_neg _ cfg.m (by omega)]
    have hamount : (X.drop (L.length - (cfg.m - 1)) ++ [cv]).length - cfg.m = 0 := by
      simp only [List.length_append, List.length_drop, List.length_singleton, hmapLen]
      omega
    rw [hamount, List.drop_zero]

/-- The state an evaluation reports is the computed new state. -/
theorem evalWithValues_state (eff : Eff) (monitor : Monitor) (campaign : Campaign)
    (clock : Clock) (s : Store) (cv ev : ℚ) (ri ii : ℕ) :
    (evalWithValues eff monitor campaign clock s cv ev ri ii).state =
      (computeNewState eff monitor campaign clock s cv ev ri).1 := by
  simp only [evalWithValues]
  split <;> rfl

/-- Fields of the computed state that do not depend on the monitor kind. -/
theorem computeNewState_base (eff : Eff) (monitor : Monitor) (campaign : Campaign)
    (clock : Clock) (s : Store) (cv ev : ℚ) (ri : ℕ) :
    ((computeNewState eff monitor campaign clock s cv ev ri).1.monitorId = monitor.id)
    ∧ ((computeNewState eff monitor campaign clock s cv ev ri).1.currentValue = cv)
    ∧ ((computeNewState eff monitor campaign clock s cv ev ri).1.expectedValue = ev)
    ∧ ((computeNewState eff monitor campaign clock s cv ev ri).1.updatedAt
        = clock.nowIso) := by
  refine ⟨?_, ?_, ?_, ?_⟩
  · simp [computeNewState, apply_ite MonitorStateData.monitorId]
  · simp [computeNewState, apply_ite MonitorStateData.currentValue]
  · simp [computeNewState, apply_ite MonitorStateData.expectedValue]
  · simp [computeNewState, apply_ite MonitorStateData.updatedAt]

/-- The `enteredStateAt` bookkeeping: reset to now exactly when the simple
breach flag is raised while the stored state was not in alarm; otherwise
taken from the prior state (falling back to now). -/
theorem computeNewState_enteredStateAt (eff : Eff) (monitor : Monitor)
    (campaign : Campaign) (clock : Clock) (s : Store) (cv ev : ℚ) (ri : ℕ) :
    (computeNewState eff monitor campaign clock s cv ev ri).1.enteredStateAt =
      if isInAlarm cv ev monitor.sensitivity = true ∧ monIsInAlarmB s monitor.id = false
      then clock.nowIso
      else jsOrS ((getMonitorState s monitor.id).map (·.enteredStateAt)) clock.nowIso := by
  simp [computeNewState, apply_ite MonitorStateData.enteredStateAt]

/-- The state classification of a non-composite monitor follows the simple
breach flag. -/
theorem computeNewState_state_simple (eff : Eff) (monitor : Monitor)
    (campaign : Campaign) (clock : Clock) (s : Store) (cv ev : ℚ) (ri : ℕ)
    (hnc : ¬(monitor.monitorType = .COMPOSITE ∧ monitor.compositeConfig.isSome)) :
    (computeNewState eff monitor campaign clock s cv ev ri).1.state =
      if isInAlarm cv ev monitor.sensitivity then .IN_ALARM else .OK := by
  simp [computeNewState, hnc, apply_ite MonitorStateData.state]

/-- The state classification and breach count of a composite monitor follow
the composite condition. -/
theorem computeNewState_state_composite (eff : Eff) (monitor : Monitor)
    (campaign : Campaign) (clock : Clock) (s : Store) (cv ev : ℚ) (ri : ℕ)
    (htype : monitor.monitorType = .COMPOSITE) (cfg : CompositeConfig)
    (hcfg : monitor.compositeConfig = some cfg) :
    ((computeNewState eff monitor campaign clock s cv ev ri).1.state =
      if (evaluateCompositeCondition monitor campaign s cv ev).1 then .IN_ALARM else .OK)
    ∧ ((computeNewState eff monitor campaign clock s cv ev ri).1.dataPointsBreached =
      some (evaluateCompositeCondition monitor campaign s cv ev).2) := by
  constructor
  · simp [computeNewState, htype, hcfg, apply_ite MonitorStateData.state]
  · simp [computeNewState, htype, hcfg, apply_ite MonitorStateData.dataPointsBreached]

/-- Absolute-value-free form of the breach test, convenient for evaluation. -/
theorem isInAlarm_eq (c e : ℚ) (sv : Sensitivity) :
    isInAlarm c e sv = decide
      (getSensitivityThreshold sv * 100 < calculateDeviation c e ∨
        getSensitivityThreshold sv * 100 < -calculateDeviation c e) := by
  unfold isInAlarm
  apply decide_eq_decide.mpr
  rw [gt_iff_lt, lt_div_iff₀ (by norm_num : (0 : ℚ) < 100), lt_abs]

/-- Composite behaviour of an evaluation with given current and expected
values: the recorded breach count is the count over the spec window and the
state fires at `n` of them. -/
theorem evalWithValues_composite_spec (eff : Eff) (monitor : Monitor)
    (campaign : Campaign) (clock : Clock) (s : Store) (cv ev : ℚ) (ri ii : ℕ)
    (cfg : CompositeConfig) (htype : monitor.monitorType = .COMPOSITE)
    (hcfg : monitor.compositeConfig = some cfg) (hm : 1 ≤ cfg.m)
    (hlen : cfg.m - 1 ≤
      (getMetricValuesByCampaignAndMetric s campaign.id monitor.metricId).length) :
    ((evalWithValues eff monitor campaign clock s cv ev ri ii).state.dataPointsBreached
      = some (breachCountIn (compositeWindow monitor campaign s cv cfg.m) ev
          monitor.sensitivity))
    ∧ ((evalWithValues eff monitor campaign clock s cv ev ri ii).state.state = .IN_ALARM
      ↔ cfg.n ≤ breachCountIn (compositeWindow monitor campaign s cv cfg.m) ev
          monitor.sensitivity) := by
  have hw := evaluateCompositeCondition_window monitor campaign s cv ev cfg hcfg hm hlen
  have hcomp := computeNewState_state_composite eff monitor campaign clock s cv ev ri
    htype cfg hcfg
  rw [evalWithValues_state]
  constructor
  · rw [hcomp.2, hw]
  · rw [hcomp.1, hw]
    by_cases hn : cfg.n ≤ breachCountIn (compositeWindow monitor campaign s cv cfg.m) ev
        monitor.sensitivity
    · simp [hn]
    · simp [hn]

/-- C3: for a composite monitor with window `m` and `requiredBreaches`
`n`, when at least `m − 1` historical samples are stored, `evaluateMonitor`
records as `dataPointsBreached` the number of samples among the last `m − 1`
stored samples followed by the current sample that individually breach the
threshold against the current expected value, and sets the state to
`IN_ALARM` exactly when that count reaches `n`; with `m = 3`, `n = 2` the
breach pattern true/false/true gives `IN_ALARM` with count 2 and the pattern
true/false/false gives `OK` with count 1. -/
theorem composite_n_of_m :
    (∀ (eff : Eff) (monitor : Monitor) (campaign : Campaign) (clock : Clock)
      (s : Store) (ri ii : ℕ) (cfg : CompositeConfig),
      monitor.monitorType = .COMPOSITE →
      monitor.compositeConfig = some cfg →
      1 ≤ cfg.m →
      cfg.m - 1 ≤
        (getMetricValuesByCampaignAndMetric s campaign.id monitor.metricId).length →
      ((evaluateMonitor eff monitor campaign clock s ri ii).state.dataPointsBreached
        = some (breachCountIn
            (compositeWindow monitor campaign s
              (evaluateMonitor eff monitor campaign clock s ri ii).state.currentValue
              cfg.m)
            (evaluateMonitor eff monitor campaign clock s ri ii).state.expectedValue
            monitor.sensitivity))
      ∧ ((evaluateMonitor eff monitor campaign clock s ri ii).state.state = .IN_ALARM
        ↔ cfg.n ≤ breachCountIn
            (compositeWindow monitor campaign s
              (evaluateMonitor eff monitor campaign clock s ri ii).state.currentValue
              cfg.m)
            (evaluateMonitor eff monitor campaign clock s ri ii).state.expectedValue
            monitor.sensitivity))
    ∧ evaluateCompositeCondition cpaCompositeMonitor campaignC1 storePatternTF 130 100
        = (true, 2)
    ∧ evaluateCompositeCondition cpaCompositeMonitor campaignC1 storePatternTF 100 100
        = (false, 1) := by
  refine ⟨?_, ?_, ?_⟩
  · intro eff monitor campaign clock s ri ii cfg htype hcfg hm hlen
    have hb := computeNewState_base eff monitor campaign clock s
      (generateCurrentMetricValue eff campaign monitor.metricId 0 clock ri).1
      (generateExpectedValue eff campaign monitor.metricId
        (generateCurrentMetricValue eff campaign monitor.metricId 0 clock ri).2).1
      (generateExpectedValue eff campaign monitor.metricId
        (generateCurrentMetricValue eff campaign monitor.metricId 0 clock ri).2).2
    have hspec := evalWithValues_composite_spec eff monitor campaign clock s
      (generateCurrentMetricValue eff campaign monitor.metricId 0 clock ri).1
      (generateExpectedValue eff campaign monitor.metricId
        (generateCurrentMetricValue eff campaign monitor.metricId 0 clock ri).2).1
      (generateExpectedValue eff campaign monitor.metricId
        (generateCurrentMetricValue eff campaign monitor.metricId 0 clock ri).2).2
      ii cfg htype hcfg hm hlen
    have hunfold : evaluateMonitor eff monitor campaign clock s ri ii =
        evalWithValues eff monitor campaign clock s
          (generateCurrentMetricValue eff campaign monitor.metricId 0 clock ri).1
          (generateExpectedValue eff campaign monitor.metricId
            (generateCurrentMetricValue eff campaign monitor.metricId 0 clock ri).2).1
          (generateExpectedValue eff campaign monitor.metricId
            (generateCurrentMetricValue eff campaign monitor.metricId 0 clock ri).2).2
          ii := rfl
    rw [hunfold, evalWithValues_state, hb.2.1, hb.2.2.1]
    rw [evalWithValues_state] at hspec
    exact hspec
  · norm_num [evaluateCompositeCondition, cpaCompositeMonitor, campaignC1, storePatternTF,
      getMetricValuesByCampaignAndMetric, sortByTs, insertByTs, jsSliceFrom,
      isInAlarm_eq, calculateDeviation, getSensitivityThreshold, List.filter_cons]
  · norm_num [evaluateCompositeCondition, cpaCompositeMonitor, campaignC1, storePatternTF,
      getMetricValuesByCampaignAndMetric, sortByTs, insertByTs, jsSliceFrom,
      isInAlarm_eq, calculateDeviation, getSensitivityThreshold, List.filter_cons]

/-- Instantiation of the composite rule at the concrete true/false pattern
store, discharging its hypotheses. -/
theorem composite_n_of_m_witness :
    ((evaluateMonitor (effA 0 "x") cpaCompositeMonitor campaignC1 (clockAt "t1")
        storePatternTF 0 0).state.dataPointsBreached
      = some (breachCountIn
          (compositeWindow cpaCompositeMonitor campaignC1 storePatternTF
            (evaluateMonitor (effA 0 "x") cpaCompositeMonitor campaignC1 (clockAt "t1")
              storePatternTF 0 0).state.currentValue 3)
          (evaluateMonitor (effA 0 "x") cpaCompositeMonitor campaignC1 (clockAt "t1")
            storePatternTF 0 0).state.expectedValue
          cpaCompositeMonitor.sensitivity))
    ∧ ((evaluateMonitor (effA 0 "x") cpaCompositeMonitor campaignC1 (clockAt "t1")
        storePatternTF 0 0).state.state = .IN_ALARM
      ↔ 2 ≤ breachCountIn
          (compositeWindow cpaCompositeMonitor campaignC1 storePatternTF
            (evaluateMonitor (effA 0 "x") cpaCompositeMonitor campaignC1 (clockAt "t1")
              storePatternTF 0 0).state.currentValue 3)
          (evaluateMonitor (effA 0 "x") cpaCompositeMonitor campaignC1 (clockAt "t1")
            storePatternTF 0 0).state.expectedValue
          cpaCompositeMonitor.sensitivity) :=
  composite_n_of_m.1 (effA 0 "x") cpaCompositeMonitor campaignC1 (clockAt "t1")
    storePatternTF 0 0 ⟨2, 3⟩ rfl rfl (by norm_num)
    (by norm_num [getMetricValuesByCampaignAndMetric, storePatternTF, sortByTs,
      insertByTs, cpaCompositeMonitor, campaignC1])

/-- Rewrites an evaluation by the concrete values its generators produced. -/
theorem evaluateMonitor_genval (eff : Eff) (monitor : Monitor) (campaign : Campaign)
    (clock : Clock) (s : Store) (ri ii : ℕ) (cv ev : ℚ) (rv rv2 : ℕ)
    (h1 : generateCurrentMetricValue eff campaign monitor.metricId 0 clock ri = (cv, rv))
    (h2 : generateExpectedValue eff campaign monitor.metricId rv = (ev, rv2)) :
    evaluateMonitor eff monitor campaign clock s ri ii =
      evalWithValues eff monitor campaign clock s cv ev rv2 ii := by
  show evalWithValues eff monitor campaign clock s
      (generateCurrentMetricValue eff campaign monitor.metricId 0 clock ri).1
      (generateExpectedValue eff campaign monitor.metricId
        (generateCurrentMetricValue eff campaign monitor.metricId 0 clock ri).2).1
      (generateExpectedValue eff campaign monitor.metricId
        (generateCurrentMetricValue eff campaign monitor.metricId 0 clock ri).2).2 ii
    = evalWithValues eff monitor campaign clock s cv ev rv2 ii
  rw [h1]
  dsimp only
  rw [h2]

/-- The engine always reads a current value of zero: the source passes `0` as
the expected value into `generateCurrentMetricValue`, and every factor is
multiplied into that zero base. -/
theorem genCur_c1_cpa (q : ℚ) (idn : String) (iso : String) (ri : ℕ) :
    generateCurrentMetricValue (effA q idn) campaignC1 "cpa" 0 (clockAt iso) ri
      = (0, ri + 1) := by
  have h456 : charCodeSum ("cpa" ++ "c1") = 456 := by decide
  norm_num [generateCurrentMetricValue, generateValue, getHourMultiplier,
    getDayMultiplier, shouldGenerateAnomaly, h456, isB2BCampaign, effA, clockAt,
    campaignC1]

/-- Expected CPA value under the all-zero random stream. -/
theorem genExp_c1_cpa_zero (idn : String) (ri : ℕ) :
    generateExpectedValue (effA 0 idn) campaignC1 "cpa" ri = (27, ri + 1) := by
  have hb : baselineValue campaignC1 "cpa" = 30 := by decide
  norm_num [generateExpectedValue, hb, effA]

/-- Expected CPA value under the constant one-half random stream. -/
theorem genExp_c1_cpa_half (idn : String) (ri : ℕ) :
    generateExpectedValue (effA (1/2) idn) campaignC1 "cpa" ri = (30, ri + 1) := by
  have hb : baselineValue campaignC1 "cpa" = 30 := by decide
  norm_num [generateExpectedValue, hb, effA]

/-- The composite condition reads the store only through its metric values. -/
theorem evaluateCompositeCondition_mv_congr (monitor : Monitor) (campaign : Campaign)
    (s s' : Store) (h : s.metricValues = s'.metricValues) (cv ev : ℚ) :
    evaluateCompositeCondition monitor campaign s cv ev =
      evaluateCompositeCondition monitor campaign s' cv ev := by
  cases hc : monitor.compositeConfig <;>
    simp [evaluateCompositeCondition, hc, getMetricValuesByCampaignAndMetric, h]

/-- Composite 2-of-3 result on an empty history with a breaching current
sample: one breach, no alarm. -/
theorem composite_c1_empty (s : Store) (h : s.metricValues = []) :
    evaluateCompositeCondition cpaCompositeMonitor campaignC1 s 0 27 = (false, 1) := by
  rw [evaluateCompositeCondition_mv_congr cpaCompositeMonitor campaignC1 s ⟨[], [], []⟩ h]
  norm_num [evaluateCompositeCondition, cpaCompositeMonitor, campaignC1,
    getMetricValuesByCampaignAndMetric, sortByTs, jsSliceFrom, isInAlarm_eq,
    calculateDeviation, getSensitivityThreshold, List.filter_cons]

/-- C2 counterexample: with a stored state in alarm since `"t0"`, an
evaluation at time `"t1"` that comes back `OK` (an InAlarm-to-OK transition)
keeps `enteredStateAt = "t0"` instead of resetting it to the evaluation
time. -/
theorem enteredStateAt_recovery_cex :
    (getMonitorState storePriorAlarm cpaCompositeMonitor.id).map (·.state)
        = some .IN_ALARM
    ∧ (evaluateMonitor (effA 0 "x") cpaCompositeMonitor campaignC1 (clockAt "t1")
        storePriorAlarm 0 0).state.state = .OK
    ∧ (evaluateMonitor (effA 0 "x") cpaCompositeMonitor campaignC1 (clockAt "t1")
        storePriorAlarm 0 0).state.enteredStateAt = "t0"
    ∧ ("t0" : String) ≠ (clockAt "t1").nowIso := by
  have hgen := evaluateMonitor_genval (effA 0 "x") cpaCompositeMonitor campaignC1
    (clockAt "t1") storePriorAlarm 0 0 0 27 (0 + 1) (0 + 1 + 1)
    (genCur_c1_cpa 0 "x" "t1" 0) (genExp_c1_cpa_zero "x" (0 + 1))
  have hcc : evaluateCompositeCondition cpaCompositeMonitor campaignC1 storePriorAlarm
      0 27 = (false, 1) := composite_c1_empty _ rfl
  have hmon : monIsInAlarmB storePriorAlarm cpaCompositeMonitor.id = true := by decide
  refine ⟨by decide, ?_, ?_, by decide⟩
  · rw [hgen, evalWithValues_state,
      (computeNewState_state_composite (effA 0 "x") cpaCompositeMonitor campaignC1
        (clockAt "t1") storePriorAlarm 0 27 (0 + 1 + 1) rfl ⟨2, 3⟩ rfl).1, hcc]
    simp
  · rw [hgen, evalWithValues_state, computeNewState_enteredStateAt,
      if_neg (by simp [hmon])]
    decide

/-- C2 amended: `enteredStateAt` is reset to the evaluation time exactly when
the simple breach flag (computed from the recorded current and expected
values) is raised while the stored state was not `IN_ALARM`; in every other
case — including an InAlarm-to-OK transition — it is carried over from the
prior state, and it is the evaluation time when no prior state exists. -/
theorem enteredStateAt_amended :
    ∀ (eff : Eff) (monitor : Monitor) (campaign : Campaign) (clock : Clock)
      (s : Store) (ri ii : ℕ),
      (getMonitorState s monitor.id = none →
        (evaluateMonitor eff monitor campaign clock s ri ii).state.enteredStateAt
          = clock.nowIso)
      ∧ (∀ p, getMonitorState s monitor.id = some p → ¬p.enteredStateAt = "" →
        (evaluateMonitor eff monitor campaign clock s ri ii).state.enteredStateAt =
          if isInAlarm
              (evaluateMonitor eff monitor campaign clock s ri ii).state.currentValue
              (evaluateMonitor eff monitor campaign clock s ri ii).state.expectedValue
              monitor.sensitivity = true
            ∧ p.state ≠ .IN_ALARM
          then clock.nowIso else p.enteredStateAt) := by
  intro eff monitor campaign clock s ri ii
  have hgen := evaluateMonitor_genval eff monitor campaign clock s ri ii
    (generateCurrentMetricValue eff campaign monitor.metricId 0 clock ri).1
    (generateExpectedValue eff campaign monitor.metricId
      (generateCurrentMetricValue eff campaign monitor.metricId 0 clock ri).2).1
    (generateCurrentMetricValue eff campaign monitor.metricId 0 clock ri).2
    (generateExpectedValue eff campaign monitor.metricId
      (generateCurrentMetricValue eff campaign monitor.metricId 0 clock ri).2).2
    rfl rfl
  obtain ⟨-, hbcv, hbev, -⟩ := computeNewState_base eff monitor campaign clock s
    (generateCurrentMetricValue eff campaign monitor.metricId 0 clock ri).1
    (generateExpectedValue eff campaign monitor.metricId
      (generateCurrentMetricValue eff campaign monitor.metricId 0 clock ri).2).1
    (generateExpectedValue eff campaign monitor.metricId
      (generateCurrentMetricValue eff campaign monitor.metricId 0 clock ri).2).2
  rw [hgen, evalWithValues_state, computeNewState_enteredStateAt, hbcv, hbev]
  constructor
  · intro hnone
    have hmon : monIsInAlarmB s monitor.id = false := by simp [monIsInAlarmB, hnone]
    simp [hnone, jsOrS, hmon]
  · intro p hsome hne
    have hmon : monIsInAlarmB s monitor.id = decide (p.state = .IN_ALARM) := by
      simp [monIsInAlarmB, hsome]
    have hcond : (isInAlarm
          (generateCurrentMetricValue eff campaign monitor.metricId 0 clock ri).1
          (generateExpectedValue eff campaign monitor.metricId
            (generateCurrentMetricValue eff campaign monitor.metricId 0 clock ri).2).1
          monitor.sensitivity = true
        ∧ monIsInAlarmB s monitor.id = false)
        ↔ (isInAlarm
          (generateCurrentMetricValue eff campaign monitor.metricId 0 clock ri).1
          (generateExpectedValue eff campaign monitor.metricId
            (generateCurrentMetricValue eff campaign monitor.metricId 0 clock ri).2).1
          monitor.sensitivity = true
        ∧ p.state ≠ .IN_ALARM) := by
      rw [hmon]
      simp
    rw [hsome, if_congr hcond rfl rfl]
    have hjs : jsOrS ((some p).map (·.enteredStateAt)) clock.nowIso
        = p.enteredStateAt := by
      simp [jsOrS, hne]
    rw [hjs]

/-- Instantiation of the amended `enteredStateAt` rule on an empty store and
on the stored in-alarm state, discharging its hypotheses. -/
theorem enteredStateAt_amended_witness :
    ((evaluateMonitor (effA 0 "x") cpaMonitor campaignC1 (clockAt "t1")
        ⟨[], [], []⟩ 0 0).state.enteredStateAt = (clockAt "t1").nowIso)
    ∧ ((evaluateMonitor (effA 0 "x") cpaCompositeMonitor campaignC1 (clockAt "t1")
        storePriorAlarm 0 0).state.enteredStateAt =
      if isInAlarm
          (evaluateMonitor (effA 0 "x") cpaCompositeMonitor campaignC1 (clockAt "t1")
            storePriorAlarm 0 0).state.currentValue
          (evaluateMonitor (effA 0 "x") cpaCompositeMonitor campaignC1 (clockAt "t1")
            storePriorAlarm 0 0).state.expectedValue
          cpaCompositeMonitor.sensitivity = true
        ∧ priorInAlarmState.state ≠ .IN_ALARM
      then (clockAt "t1").nowIso else priorInAlarmState.enteredStateAt) :=
  ⟨(enteredStateAt_amended (effA 0 "x") cpaMonitor campaignC1 (clockAt "t1")
      ⟨[], [], []⟩ 0 0).1 rfl,
    (enteredStateAt_amended (effA 0 "x") cpaCompositeMonitor campaignC1 (clockAt "t1")
      storePriorAlarm 0 0).2 priorInAlarmState (by decide) (by decide)⟩

/-- Away from the granular branch, the computed state does not depend on the
effect streams or the random stream position. -/
theorem computeNewState_fst_rand_free (eff1 eff2 : Eff) (monitor : Monitor)
    (campaign : Campaign) (clock : Clock) (s : Store) (cv ev : ℚ) (ri1 ri2 : ℕ)
    (hng : ¬(monitor.monitorType = .GRANULAR ∧ monitor.granularDimensions.isSome)) :
    (computeNewState eff1 monitor campaign clock s cv ev ri1).1 =
      (computeNewState eff2 monitor campaign clock s cv ev ri2).1 := by
  simp [computeNewState, hng]

/-- Given equal generated values and equal uuid streams, the two evaluations
of a non-granular monitor agree on state, alarm and store. -/
theorem evalWithValues_rand_free (eff1 eff2 : Eff) (monitor : Monitor)
    (campaign : Campaign) (clock : Clock) (s : Store) (cv ev : ℚ) (ri1 ri2 ii : ℕ)
    (hids : eff1.ids = eff2.ids)
    (hng : ¬(monitor.monitorType = .GRANULAR ∧ monitor.granularDimensions.isSome)) :
    ((evalWithValues eff1 monitor campaign clock s cv ev ri1 ii).state
      = (evalWithValues eff2 monitor campaign clock s cv ev ri2 ii).state)
    ∧ ((evalWithValues eff1 monitor campaign clock s cv ev ri1 ii).alarm
      = (evalWithValues eff2 monitor campaign clock s cv ev ri2 ii).alarm)
    ∧ ((evalWithValues eff1 monitor campaign clock s cv ev ri1 ii).store
      = (evalWithValues eff2 monitor campaign clock s cv ev ri2 ii).store) := by
  have hcn := computeNewState_fst_rand_free eff1 eff2 monitor campaign clock s cv ev
    ri1 ri2 hng
  refine ⟨?_, ?_, ?_⟩ <;>
    · simp only [evalWithValues, hcn, hids]
      split <;> rfl

/-- C6 amended: the engine downstream of value generation is deterministic —
for a non-granular monitor, two evaluations that share the uuid stream and
whose generators produced the same current and expected values yield the same
state, the same alarm decision and the same store, whatever the random
draws. -/
theorem evaluateMonitor_deterministic_amended :
    ∀ (eff1 eff2 : Eff) (monitor : Monitor) (campaign : Campaign) (clock : Clock)
      (s : Store) (ri1 ri2 ii : ℕ),
      eff1.ids = eff2.ids →
      ¬(monitor.monitorType = .GRANULAR ∧ monitor.granularDimensions.isSome) →
      (generateCurrentMetricValue eff1 campaign monitor.metricId 0 clock ri1).1
        = (generateCurrentMetricValue eff2 campaign monitor.metricId 0 clock ri2).1 →
      (generateExpectedValue eff1 campaign monitor.metricId
          (generateCurrentMetricValue eff1 campaign monitor.metricId 0 clock ri1).2).1
        = (generateExpectedValue eff2 campaign monitor.metricId
          (generateCurrentMetricValue eff2 campaign monitor.metricId 0 clock ri2).2).1 →
      ((evaluateMonitor eff1 monitor campaign clock s ri1 ii).state
        = (evaluateMonitor eff2 monitor campaign clock s ri2 ii).state)
      ∧ ((evaluateMonitor eff1 monitor campaign clock s ri1 ii).alarm
        = (evaluateMonitor eff2 monitor campaign clock s ri2 ii).alarm)
      ∧ ((evaluateMonitor eff1 monitor campaign clock s ri1 ii).store
        = (evaluateMonitor eff2 monitor campaign clock s ri2 ii).store) := by
  intro eff1 eff2 monitor campaign clock s ri1 ri2 ii hids hng hcv hev
  have hg1 := evaluateMonitor_genval eff1 monitor campaign clock s ri1 ii
    (generateCurrentMetricValue eff1 campaign monitor.metricId 0 clock ri1).1
    (generateExpectedValue eff1 campaign monitor.metricId
      (generateCurrentMetricValue eff1 campaign monitor.metricId 0 clock ri1).2).1
    (generateCurrentMetricValue eff1 campaign monitor.metricId 0 clock ri1).2
    (generateExpectedValue eff1 campaign monitor.metricId
      (generateCurrentMetricValue eff1 campaign monitor.metricId 0 clock ri1).2).2
    rfl rfl
  have hg2 := evaluateMonitor_genval eff2 monitor campaign clock s ri2 ii
    (generateCurrentMetricValue eff2 campaign monitor.metricId 0 clock ri2).1
    (generateExpectedValue eff2 campaign monitor.metricId
      (generateCurrentMetricValue eff2 campaign monitor.metricId 0 clock ri2).2).1
    (generateCurrentMetricValue eff2 campaign monitor.metricId 0 clock ri2).2
    (generateExpectedValue eff2 campaign monitor.metricId
      (generateCurrentMetricValue eff2 campaign monitor.metricId 0 clock ri2).2).2
    rfl rfl
  rw [hg1, hg2, hcv, hev]
  exact evalWithValues_rand_free eff1 eff2 monitor campaign clock s _ _ _ _ ii hids hng

/-- C6 counterexample: two evaluations with identical monitor, campaign,
store, clock and uuid stream but different random draws produce different
states — the expected value the engine records is randomized per call. -/
theorem evaluateMonitor_randomized_cex :
    (effA 0 "x").ids = (effA (1/2) "x").ids
    ∧ (evaluateMonitor (effA 0 "x") cpaMonitor campaignC1 (clockAt "t1")
        ⟨[], [], []⟩ 0 0).state.expectedValue = 27
    ∧ (evaluateMonitor (effA (1/2) "x") cpaMonitor campaignC1 (clockAt "t1")
        ⟨[], [], []⟩ 0 0).state.expectedValue = 30
    ∧ (evaluateMonitor (effA 0 "x") cpaMonitor campaignC1 (clockAt "t1")
        ⟨[], [], []⟩ 0 0).state
      ≠ (evaluateMonitor (effA (1/2) "x") cpaMonitor campaignC1 (clockAt "t1")
        ⟨[], [], []⟩ 0 0).state := by
  have hg1 := evaluateMonitor_genval (effA 0 "x") cpaMonitor campaignC1 (clockAt "t1")
    ⟨[], [], []⟩ 0 0 0 27 (0 + 1) (0 + 1 + 1)
    (genCur_c1_cpa 0 "x" "t1" 0) (genExp_c1_cpa_zero "x" (0 + 1))
  have hg2 := evaluateMonitor_genval (effA (1/2) "x") cpaMonitor campaignC1
    (clockAt "t1") ⟨[], [], []⟩ 0 0 0 30 (0 + 1) (0 + 1 + 1)
    (genCur_c1_cpa (1/2) "x" "t1" 0) (genExp_c1_cpa_half "x" (0 + 1))
  have h27 : (evaluateMonitor (effA 0 "x") cpaMonitor campaignC1 (clockAt "t1")
      ⟨[], [], []⟩ 0 0).state.expectedValue = 27 := by
    rw [hg1, evalWithValues_state]
    exact (computeNewState_base _ _ _ _ _ _ _ _).2.2.1
  have h30 : (evaluateMonitor (effA (1/2) "x") cpaMonitor campaignC1 (clockAt "t1")
      ⟨[], [], []⟩ 0 0).state.expectedValue = 30 := by
    rw [hg2, evalWithValues_state]
    exact (computeNewState_base _ _ _ _ _ _ _ _).2.2.1
  refine ⟨rfl, h27, h30, ?_⟩
  intro h
  have hc := congrArg MonitorStateData.expectedValue h
  rw [h27, h30] at hc
  norm_num at hc

/-- Current CPA value under the `effB` streams. -/
theorem genCur_c1_cpa_effB (iso : String) :
    generateCurrentMetricValue effB campaignC1 "cpa" 0 (clockAt iso) 0 = (0, 0 + 1) := by
  have h456 : charCodeSum ("cpa" ++ "c1") = 456 := by decide
  norm_num [generateCurrentMetricValue, generateValue, getHourMultiplier,
    getDayMultiplier, shouldGenerateAnomaly, h456, isB2BCampaign, effB, clockAt,
    campaignC1]

/-- Expected CPA value under the `effB` streams at stream position one. -/
theorem genExp_c1_cpa_effB :
    generateExpectedValue effB campaignC1 "cpa" (0 + 1) = (27, 0 + 1 + 1) := by
  have hb : baselineValue campaignC1 "cpa" = 30 := by decide
  norm_num [generateExpectedValue, hb, effB]

/-- Instantiation of the amended determinism rule at two different random
streams that produce the same generated values, discharging its
hypotheses. -/
theorem evaluateMonitor_deterministic_amended_witness :
    ((evaluateMonitor (effA 0 "x") cpaMonitor campaignC1 (clockAt "t1")
        ⟨[], [], []⟩ 0 0).state
      = (evaluateMonitor effB cpaMonitor campaignC1 (clockAt "t1")
        ⟨[], [], []⟩ 0 0).state)
    ∧ ((evaluateMonitor (effA 0 "x") cpaMonitor campaignC1 (clockAt "t1")
        ⟨[], [], []⟩ 0 0).alarm
      = (evaluateMonitor effB cpaMonitor campaignC1 (clockAt "t1")
        ⟨[], [], []⟩ 0 0).alarm)
    ∧ ((evaluateMonitor (effA 0 "x") cpaMonitor campaignC1 (clockAt "t1")
        ⟨[], [], []⟩ 0 0).store
      = (evaluateMonitor effB cpaMonitor campaignC1 (clockAt "t1")
        ⟨[], [], []⟩ 0 0).store) :=
  evaluateMonitor_deterministic_amended (effA 0 "x") effB cpaMonitor campaignC1
    (clockAt "t1") ⟨[], [], []⟩ 0 0 0 rfl (by simp [cpaMonitor])
    (by simp only [cpaMonitor]
        rw [genCur_c1_cpa 0 "x" "t1" 0, genCur_c1_cpa_effB "t1"])
    (by simp only [cpaMonitor]
        rw [genCur_c1_cpa 0 "x" "t1" 0, genCur_c1_cpa_effB "t1"]
        dsimp only
        rw [genExp_c1_cpa_zero "x" (0 + 1), genExp_c1_cpa_effB])

/-- Folding `resolveAlarm` over a store only rewrites its alarm list. -/
theorem foldl_resolveAlarm_eq (now : String) (L : List Alarm) (s : Store) :
    L.foldl (fun acc a => resolveAlarm acc a.id .AUTO_RESOLVED now) s
      = { s with alarms :=
          L.foldl (fun al a => resolveAlarmList a.id .AUTO_RESOLVED now al) s.alarms } := by
  induction L generalizing s with
  | nil => rfl
  | cons a L ih =>
    simp only [List.foldl_cons]
    rw [ih]
    rfl

/-- `autoResolveAlarms` as a conditional rewrite of the alarm list. -/
theorem autoResolveAlarms_eq (monitor : Monitor) (st : MonitorStateData) (s : Store)
    (now : String) :
    autoResolveAlarms monitor st s now =
      if st.state = .OK then
        { s with alarms :=
          ((s.alarms.filter
              (fun a => decide (a.monitorId = monitor.id) && decide (a.state = .ACTIVE))).foldl
            (fun al a => resolveAlarmList a.id .AUTO_RESOLVED now al) s.alarms) }
      else s := by
  unfold autoResolveAlarms
  split
  · rw [foldl_resolveAlarm_eq]
  · rfl

/-- `autoResolveAlarms` leaves monitor states and metric values untouched. -/
theorem autoResolveAlarms_frame (monitor : Monitor) (st : MonitorStateData) (s : Store)
    (now : String) :
    ((autoResolveAlarms monitor st s now).monitorStates = s.monitorStates)
    ∧ ((autoResolveAlarms monitor st s now).metricValues = s.metricValues) := by
  rw [autoResolveAlarms_eq]
  split <;> exact ⟨rfl, rfl⟩

/-- The monitor-state list after an evaluation: the computed state (stamped
with now, which it already carries) is upserted. -/
theorem evalWithValues_store_monitorStates (eff : Eff) (monitor : Monitor)
    (campaign : Campaign) (clock : Clock) (s : Store) (cv ev : ℚ) (ri ii : ℕ) :
    (evalWithValues eff monitor campaign clock s cv ev ri ii).store.monitorStates
      = upsertMonitorState s.monitorStates
          { (computeNewState eff monitor campaign clock s cv ev ri).1 with
              updatedAt := clock.nowIso } := by
  simp only [evalWithValues, createAlarmFromMonitor, saveAlarm, saveMonitorState]
  split <;> rfl

/-- The alarm list after an evaluation: a new active alarm is upserted exactly
on a transition into `IN_ALARM`. -/
theorem evalWithValues_store_alarms (eff : Eff) (monitor : Monitor)
    (campaign : Campaign) (clock : Clock) (s : Store) (cv ev : ℚ) (ri ii : ℕ) :
    (evalWithValues eff monitor campaign clock s cv ev ri ii).store.alarms
      = if (computeNewState eff monitor campaign clock s cv ev ri).1.state = .IN_ALARM
           ∧ monIsInAlarmB s monitor.id = false
        then upsertAlarm s.alarms (builtAlarm monitor campaign
          (computeNewState eff monitor campaign clock s cv ev ri).1 (eff.ids ii))
        else s.alarms := by
  simp only [evalWithValues, createAlarmFromMonitor, saveAlarm, saveMonitorState]
  split <;> rename_i h <;> simp [h]

/-- The reported alarm: created exactly on a transition into `IN_ALARM`. -/
theorem evalWithValues_alarm (eff : Eff) (monitor : Monitor)
    (campaign : Campaign) (clock : Clock) (s : Store) (cv ev : ℚ) (ri ii : ℕ) :
    (evalWithValues eff monitor campaign clock s cv ev ri ii).alarm
      = if (computeNewState eff monitor campaign clock s cv ev ri).1.state = .IN_ALARM
           ∧ monIsInAlarmB s monitor.id = false
        then some (builtAlarm monitor campaign
          (computeNewState eff monitor campaign clock s cv ev ri).1 (eff.ids ii))
        else none := by
  simp only [evalWithValues, createAlarmFromMonitor]
  split <;> rename_i h <;> simp [h]

/-- Metric values are never written by an evaluation. -/
theorem evalWithValues_store_metricValues (eff : Eff) (monitor : Monitor)
    (campaign : Campaign) (clock : Clock) (s : Store) (cv ev : ℚ) (ri ii : ℕ) :
    (evalWithValues eff monitor campaign clock s cv ev ri ii).store.metricValues
      = s.metricValues := by
  simp only [evalWithValues, createAlarmFromMonitor, saveAlarm, saveMonitorState]
  split <;> rfl

/-- An upsert of a state with a different monitor id is invisible to lookups
of this id. -/
theorem find_upsertMonitorState_ne (l : List MonitorStateData)
    (st : MonitorStateData) (x : String) (hne : ¬st.monitorId = x) :
    (upsertMonitorState l st).find? (fun q => decide (q.monitorId = x))
      = l.find? (fun q => decide (q.monitorId = x)) := by
  induction l with
  | nil => simp [upsertMonitorState, List.find?, hne]
  | cons y l ih =>
    simp only [upsertMonitorState]
    by_cases hy : y.monitorId = st.monitorId
    · rw [if_pos hy]
      have hyx : ¬y.monitorId = x := by rw [hy]; exact hne
      simp [List.find?, hne, hyx]
    · rw [if_neg hy]
      by_cases hyx : y.monitorId = x
      · simp [List.find?, hyx]
      · simp [List.find?, hyx, ih]

/-- An upsert of a state is what lookups of its monitor id find. -/
theorem find_upsertMonitorState_self (l : List MonitorStateData)
    (st : MonitorStateData) :
    (upsertMonitorState l st).find? (fun q => decide (q.monitorId = st.monitorId))
      = some st := by
  induction l with
  | nil => simp [upsertMonitorState, List.find?]
  | cons y l ih =>
    simp only [upsertMonitorState]
    by_cases hy : y.monitorId = st.monitorId
    · rw [if_pos hy]
      simp [List.find?]
    · rw [if_neg hy]
      simp [List.find?, hy, ih]

/-- `getMonitorState` only reads the monitor-state list. -/
theorem getMonitorState_congr (s s' : Store) (x : String)
    (h : s.monitorStates = s'.monitorStates) :
    getMonitorState s x = getMonitorState s' x := by
  simp [getMonitorState, h]

/-- A successfully evaluated monitor writes no state of another monitor. -/
theorem evaluateMonitorE_ok_states (eff : Eff)
    (rc re : Campaign → String → Except String ℚ) (monitor : Monitor)
    (campaign : Campaign) (clock : Clock) (s : Store) (ri ii : ℕ) (r : EvalResult)
    (x : String) (h : evaluateMonitorE eff rc re monitor campaign clock s ri ii = .ok r)
    (hx : ¬monitor.id = x) :
    getMonitorState r.store x = getMonitorState s x := by
  unfold evaluateMonitorE at h
  cases h1 : rc campaign monitor.metricId with
  | error e => rw [h1] at h; cases h
  | ok cv =>
    rw [h1] at h
    cases h2 : re campaign monitor.metricId with
    | error e => rw [h2] at h; cases h
    | ok ev =>
      rw [h2] at h
      injection h with h
      subst h
      have hmid := (computeNewState_base eff monitor campaign clock s cv ev ri).1
      unfold getMonitorState
      rw [evalWithValues_store_monitorStates, find_upsertMonitorState_ne]
      simpa [hmid] using hx

/-- Running an exception-aware batch over a concatenation: a successful
prefix run continues with the rest. -/
theorem evaluateAllMonitorsE_append (eff : Eff)
    (rc re : Campaign → String → Except String ℚ) (campaign : Campaign)
    (clock : Clock) (pre rest : List Monitor) (acc acc1 : BatchAcc)
    (h : evaluateAllMonitorsE eff rc re campaign clock pre acc = .ok acc1) :
    evaluateAllMonitorsE eff rc re campaign clock (pre ++ rest) acc
      = evaluateAllMonitorsE eff rc re campaign clock rest acc1 := by
  induction pre generalizing acc with
  | nil =>
    simp only [evaluateAllMonitorsE] at h
    injection h with h
    subst h
    rfl
  | cons w pre ih =>
    simp only [List.cons_append, evaluateAllMonitorsE] at h ⊢
    by_cases hw : w.enabled = false
    · rw [if_pos hw] at h ⊢
      exact ih _ h
    · rw [if_neg hw] at h ⊢
      cases hr : evaluateMonitorE eff rc re w campaign clock acc.store acc.ri acc.ii with
      | error e => rw [hr] at h; simp at h
      | ok r => rw [hr] at h; exact ih _ h

/-- A failing current-value read on the first enabled monitor aborts the
batch with the store as it was. -/
theorem evaluateAllMonitorsE_abort (eff : Eff)
    (rc re : Campaign → String → Except String ℚ) (campaign : Campaign)
    (clock : Clock) (m : Monitor) (post : List Monitor) (acc : BatchAcc)
    (msg : String) (hen : m.enabled = true)
    (hrc : rc campaign m.metricId = .error msg) :
    evaluateAllMonitorsE eff rc re campaign clock (m :: post) acc
      = .error (msg, acc.store) := by
  simp only [evaluateAllMonitorsE, hen, evaluateMonitorE, hrc]
  rfl

/-- A successful batch writes no state of a monitor outside its list. -/
theorem evaluateAllMonitorsE_states_frame (eff : Eff)
    (rc re : Campaign → String → Except String ℚ) (campaign : Campaign)
    (clock : Clock) (L : List Monitor) (acc acc1 : BatchAcc) (x : String)
    (h : evaluateAllMonitorsE eff rc re campaign clock L acc = .ok acc1)
    (hx : ∀ w ∈ L, ¬w.id = x) :
    getMonitorState acc1.store x = getMonitorState acc.store x := by
  induction L generalizing acc with
  | nil =>
    simp only [evaluateAllMonitorsE] at h
    injection h with h
    subst h
    rfl
  | cons w L ih =>
    simp only [evaluateAllMonitorsE] at h
    by_cases hw : w.enabled = false
    · rw [if_pos hw] at h
      exact ih _ h (fun b hb => hx b (List.mem_cons_of_mem w hb))
    · rw [if_neg hw] at h
      cases hr : evaluateMonitorE eff rc re w campaign clock acc.store acc.ri acc.ii with
      | error e => rw [hr] at h; cases h
      | ok r =>
        rw [hr] at h
        have hihres := ih _ h (fun b hb => hx b (List.mem_cons_of_mem w hb))
        rw [hihres]
        have hauto := getMonitorState_congr
          (autoResolveAlarms w r.state r.store clock.nowIso) r.store x
          (autoResolveAlarms_frame w r.state r.store clock.nowIso).1
        rw [hauto]
        exact evaluateMonitorE_ok_states eff rc re w campaign clock acc.store acc.ri
          acc.ii r x hr (hx w (List.mem_cons_self w L))

/-- C5 amended: the batch is not failure-isolated — when the metric-source
read of one enabled monitor fails, the whole `evaluateAllMonitors` call
rejects with the store as committed by the monitors before it; the failing
monitor's own prior state is untouched and the monitors after it are never
evaluated. -/
theorem batch_abort_amended :
    ∀ (eff : Eff) (rc re : Campaign → String → Except String ℚ)
      (campaign : Campaign) (clock : Clock) (pre : List Monitor) (m : Monitor)
      (post : List Monitor) (acc acc1 : BatchAcc) (msg : String),
      evaluateAllMonitorsE eff rc re campaign clock pre acc = .ok acc1 →
      m.enabled = true →
      rc campaign m.metricId = .error msg →
      (evaluateAllMonitorsE eff rc re campaign clock (pre ++ m :: post) acc
        = .error (msg, acc1.store))
      ∧ ((∀ w ∈ pre, ¬w.id = m.id) →
        getMonitorState acc1.store m.id = getMonitorState acc.store m.id) := by
  intro eff rc re campaign clock pre m post acc acc1 msg hpre hen hrc
  constructor
  · rw [evaluateAllMonitorsE_append eff rc re campaign clock pre (m :: post) acc acc1
      hpre]
    exact evaluateAllMonitorsE_abort eff rc re campaign clock m post acc1 msg hen hrc
  · intro hws
    exact evaluateAllMonitorsE_states_frame eff rc re campaign clock pre acc acc1
      m.id hpre hws

/-- C5 counterexample: a batch over the failing CPA monitor followed by the
CTR monitor rejects at the first monitor — the result is an error carrying
the untouched store, and the CTR monitor is never evaluated (no state is ever
stored for it). -/
theorem batch_abort_cex :
    evaluateAllMonitorsE (effA 0 "x") rcFailCpa readOk1 campaignC1 (clockAt "t1")
        [cpaMonitor, ctrMonitor] ⟨[], [], storePriorAlarm, 0, 0⟩
      = .error ("metric source unavailable", storePriorAlarm)
    ∧ getMonitorState storePriorAlarm ctrMonitor.id = none := by
  constructor
  · rfl
  · rfl

/-- Instantiation of the amended abort behaviour at the failing CPA monitor,
discharging its hypotheses. -/
theorem batch_abort_amended_witness :
    (evaluateAllMonitorsE (effA 0 "x") rcFailCpa readOk1 campaignC1 (clockAt "t1")
        ([] ++ cpaMonitor :: [ctrMonitor]) ⟨[], [], storePriorAlarm, 0, 0⟩
      = .error ("metric source unavailable",
          (⟨[], [], storePriorAlarm, 0, 0⟩ : BatchAcc).store))
    ∧ ((∀ w ∈ ([] : List Monitor), ¬w.id = cpaMonitor.id) →
      getMonitorState (⟨[], [], storePriorAlarm, 0, 0⟩ : BatchAcc).store cpaMonitor.id
        = getMonitorState (⟨[], [], storePriorAlarm, 0, 0⟩ : BatchAcc).store
            cpaMonitor.id) :=
  batch_abort_amended (effA 0 "x") rcFailCpa readOk1 campaignC1 (clockAt "t1")
    [] cpaMonitor [ctrMonitor] ⟨[], [], storePriorAlarm, 0, 0⟩
    ⟨[], [], storePriorAlarm, 0, 0⟩ "metric source unavailable" rfl rfl rfl

/-- With duplicate-free ids, resolving one alarm id acts pointwise. -/
theorem resolveAlarmList_eq_map (q : String) (method : ResolutionMethod)
    (now : String) (l : List Alarm) (hnd : (l.map (·.id)).Nodup) :
    resolveAlarmList q method now l =
      l.map (fun a => if a.id = q ∧ a.state = .ACTIVE
        then resolveAlarmUpd method now a else a) := by
  induction l with
  | nil => rfl
  | cons a rest ih =>
    simp only [List.map_cons, List.nodup_cons] at hnd
    simp only [resolveAlarmList, List.map_cons]
    by_cases hid : a.id = q
    · rw [if_pos hid]
      have hrest : rest.map (fun a => if a.id = q ∧ a.state = .ACTIVE
          then resolveAlarmUpd method now a else a) = rest := by
        have h1 : ∀ x ∈ rest, (if x.id = q ∧ x.state = .ACTIVE
            then resolveAlarmUpd method now x else x) = x := by
          intro x hx
          rw [if_neg]
          rintro ⟨h2, -⟩
          exact hnd.1 (by rw [hid, ← h2]; exact List.mem_map_of_mem (·.id) hx)
        calc rest.map (fun a => if a.id = q ∧ a.state = .ACTIVE
              then resolveAlarmUpd method now a else a)
            = rest.map id := List.map_congr_left h1
          _ = rest := List.map_id rest
      by_cases hact : a.state = .ACTIVE
      · rw [if_pos hact, if_pos ⟨hid, hact⟩, hrest]
      · rw [if_neg hact, if_neg (by rintro ⟨-, h2⟩; exact hact h2), hrest]
    · rw [if_neg hid, if_neg (by rintro ⟨h1, -⟩; exact hid h1), ih hnd.2]

/-- Resolving never changes alarm ids. -/
theorem resolveAlarmList_ids (q : String) (method : ResolutionMethod) (now : String)
    (l : List Alarm) :
    (resolveAlarmList q method now l).map (·.id) = l.map (·.id) := by
  induction l with
  | nil => rfl
  | cons a rest ih =>
    simp only [resolveAlarmList]
    by_cases hid : a.id = q
    · rw [if_pos hid]
      by_cases hact : a.state = .ACTIVE
      · rw [if_pos hact]
        simp [resolveAlarmUpd]
      · rw [if_neg hact]
    · rw [if_neg hid]
      simp [ih]

/-- Two alarms of a duplicate-free list sharing an id are the same alarm. -/
theorem nodup_ids_inj {l : List Alarm} (hnd : (l.map (·.id)).Nodup) {a b : Alarm}
    (ha : a ∈ l) (hb : b ∈ l) (hid : a.id = b.id) : a = b :=
  List.inj_on_of_nodup_map hnd ha hb hid

/-- Folding single-id resolutions over a duplicate-free list resolves exactly
the active alarms whose id is listed. -/
theorem foldResolve_eq_map (now : String) (L t : List Alarm)
    (hnd : (t.map (·.id)).Nodup) :
    L.foldl (fun al a => resolveAlarmList a.id .AUTO_RESOLVED now al) t
      = t.map (fun b => if (b.id ∈ L.map (·.id)) ∧ b.state = .ACTIVE
          then resolveAlarmUpd .AUTO_RESOLVED now b else b) := by
  induction L generalizing t with
  | nil =>
    simp only [List.foldl_nil, List.map_nil]
    have h1 : ∀ x ∈ t, (if (x.id ∈ ([] : List String)) ∧ x.state = .ACTIVE
        then resolveAlarmUpd .AUTO_RESOLVED now x else x) = x := by
      intro x hx
      simp
    calc t = t.map id := (List.map_id t).symm
      _ = _ := (List.map_congr_left (fun x hx => (h1 x hx).symm))
  | cons a L ih =>
    simp only [List.foldl_cons]
    rw [resolveAlarmList_eq_map a.id .AUTO_RESOLVED now t hnd]
    have hids : ((t.map (fun b => if b.id = a.id ∧ b.state = .ACTIVE
        then resolveAlarmUpd .AUTO_RESOLVED now b else b)).map (·.id))
        = t.map (·.id) := by
      rw [List.map_map]
      apply List.map_congr_left
      intro b hb
      by_cases h : b.id = a.id ∧ b.state = .ACTIVE
      · simp [h, resolveAlarmUpd]
      · simp [h]
    rw [ih _ (by rw [hids]; exact hnd)]
    rw [List.map_map]
    apply List.map_congr_left
    intro b hb
    simp only [Function.comp_apply, List.map_cons]
    by_cases hb1 : b.id = a.id ∧ b.state = .ACTIVE
    · rw [if_pos hb1]
      rw [if_neg (by simp [resolveAlarmUpd])]
      rw [if_pos ⟨by rw [hb1.1]; exact List.mem_cons_self a.id (L.map (·.id)), hb1.2⟩]
    · rw [if_neg hb1]
      by_cases hb2 : (b.id ∈ L.map (·.id)) ∧ b.state = .ACTIVE
      · rw [if_pos hb2, if_pos ⟨List.mem_cons_of_mem a.id hb2.1, hb2.2⟩]
      · rw [if_neg hb2, if_neg ?_]
        rintro ⟨hmem, hact⟩
        rcases List.mem_cons.mp hmem with h | h
        · exact hb1 ⟨h, hact⟩
        · exact hb2 ⟨h, hact⟩

/-- On an OK state, auto-resolution rewrites each alarm pointwise: every
active alarm of the monitor becomes auto-resolved, nothing else changes. -/
theorem autoResolveAlarms_ok_map (monitor : Monitor) (st : MonitorStateData)
    (s : Store) (now : String) (hok : st.state = .OK)
    (hnd : (s.alarms.map (·.id)).Nodup) :
    autoResolveAlarms monitor st s now =
      { s with alarms := s.alarms.map (autoResolveUpd monitor.id now) } := by
  rw [autoResolveAlarms_eq, if_pos hok]
  have halarms : ((s.alarms.filter
        (fun a => decide (a.monitorId = monitor.id) && decide (a.state = .ACTIVE))).foldl
      (fun al a => resolveAlarmList a.id .AUTO_RESOLVED now al) s.alarms)
      = s.alarms.map (autoResolveUpd monitor.id now) := by
    rw [foldResolve_eq_map now _ s.alarms hnd]
    apply List.map_congr_left
    intro b hb
    unfold autoResolveUpd
    by_cases hP : b.monitorId = monitor.id ∧ b.state = .ACTIVE
    · rw [if_pos hP, if_pos ?_]
      refine ⟨List.mem_map_of_mem (fun a : Alarm => a.id) ?_, hP.2⟩
      exact List.mem_filter.mpr ⟨hb, by simp [hP.1, hP.2]⟩
    · rw [if_neg hP, if_neg ?_]
      rintro ⟨hmem, hact⟩
      rcases List.mem_map.mp hmem with ⟨c, hc, hcid⟩
      have hcl := List.mem_filter.mp hc
      have hbc : b = c := nodup_ids_inj hnd hb hcl.1 hcid.symm
      have hcP : c.monitorId = monitor.id ∧ c.state = .ACTIVE := by
        simpa using hcl.2
      exact hP ⟨by rw [hbc]; exact hcP.1, hact⟩
  rw [halarms]

/-- The pointwise auto-resolution update on an alarm of the monitor that is
active. -/
theorem autoResolveUpd_pos (mid now : String) (b : Alarm)
    (hP : b.monitorId = mid ∧ b.state = .ACTIVE) :
    autoResolveUpd mid now b = resolveAlarmUpd .AUTO_RESOLVED now b := by
  unfold autoResolveUpd
  rw [if_pos hP]

/-- The pointwise auto-resolution update elsewhere. -/
theorem autoResolveUpd_neg (mid now : String) (b : Alarm)
    (hP : ¬(b.monitorId = mid ∧ b.state = .ACTIVE)) :
    autoResolveUpd mid now b = b := by
  unfold autoResolveUpd
  rw [if_neg hP]

/-- Auto-resolution of one monitor leaves no active alarm of that monitor. -/
theorem filter_map_autoResolveUpd_self (l : List Alarm) (mid now : String) :
    (l.map (autoResolveUpd mid now)).filter
      (fun a => decide (a.monitorId = mid) && decide (a.state = .ACTIVE)) = [] := by
  induction l with
  | nil => rfl
  | cons b l ih =>
    rw [List.map_cons, List.filter_cons]
    by_cases hP : b.monitorId = mid ∧ b.state = .ACTIVE
    · rw [autoResolveUpd_pos mid now b hP, if_neg (by simp [resolveAlarmUpd])]
      exact ih
    · rw [autoResolveUpd_neg mid now b hP, if_neg (by simpa using hP)]
      exact ih

/-- Auto-resolution of one monitor does not touch the active alarms of
another monitor. -/
theorem filter_map_autoResolveUpd_other (l : List Alarm) (mid now x : String)
    (hx : ¬x = mid) :
    (l.map (autoResolveUpd mid now)).filter
        (fun a => decide (a.monitorId = x) && decide (a.state = .ACTIVE))
      = l.filter (fun a => decide (a.monitorId = x) && decide (a.state = .ACTIVE)) := by
  induction l with
  | nil => rfl
  | cons b l ih =>
    rw [List.map_cons, List.filter_cons, List.filter_cons]
    by_cases hP : b.monitorId = mid ∧ b.state = .ACTIVE
    · have hbx : ¬(b.monitorId = x ∧ b.state = .ACTIVE) := by
        rintro ⟨h1, -⟩
        exact hx (by rw [← h1, hP.1])
      rw [autoResolveUpd_pos mid now b hP, if_neg (by simp [resolveAlarmUpd]),
        if_neg (by simpa using hbx)]
      exact ih
    · rw [autoResolveUpd_neg mid now b hP]
      by_cases hbx : b.monitorId = x ∧ b.state = .ACTIVE
      · rw [if_pos (by simp [hbx.1, hbx.2]), if_pos (by simp [hbx.1, hbx.2]), ih]
      · rw [if_neg (by simpa using hbx), if_neg (by simpa using hbx)]
        exact ih

/-- Auto-resolution does not touch the alarms of another monitor at all. -/
theorem filter_map_autoResolveUpd_monid (l : List Alarm) (mid now x : String)
    (hx : ¬x = mid) :
    (l.map (autoResolveUpd mid now)).filter (fun a => decide (a.monitorId = x))
      = l.filter (fun a => decide (a.monitorId = x)) := by
  induction l with
  | nil => rfl
  | cons b l ih =>
    rw [List.map_cons, List.filter_cons, List.filter_cons]
    by_cases hP : b.monitorId = mid ∧ b.state = .ACTIVE
    · have hbx : ¬b.monitorId = x := by
        intro h1
        exact hx (by rw [← h1, hP.1])
      rw [autoResolveUpd_pos mid now b hP, if_neg (by simp [resolveAlarmUpd, hbx]),
        if_neg (by simpa using hbx)]
      exact ih
    · rw [autoResolveUpd_neg mid now b hP]
      by_cases hbx : b.monitorId = x
      · rw [if_pos (by simpa using hbx), if_pos (by simpa using hbx), ih]
      · rw [if_neg (by simpa using hbx), if_neg (by simpa using hbx)]
        exact ih

/-- A fresh alarm id is appended by the upsert. -/
theorem upsertAlarm_fresh (l : List Alarm) (a : Alarm)
    (h : a.id ∉ l.map (·.id)) : upsertAlarm l a = l ++ [a] := by
  induction l with
  | nil => rfl
  | cons b l ih =>
    simp only [List.map_cons, List.mem_cons, not_or] at h
    simp only [upsertAlarm]
    rw [if_neg (fun hb => h.1 hb.symm), ih h.2]
    rfl

/-- The uuid stream advances exactly when an alarm is created. -/
theorem evalWithValues_ii (eff : Eff) (monitor : Monitor) (campaign : Campaign)
    (clock : Clock) (s : Store) (cv ev : ℚ) (ri ii : ℕ) :
    (evalWithValues eff monitor campaign clock s cv ev ri ii).ii
      = if (computeNewState eff monitor campaign clock s cv ev ri).1.state = .IN_ALARM
           ∧ monIsInAlarmB s monitor.id = false
        then ii + 1 else ii := by
  simp only [evalWithValues]
  split <;> rename_i h <;> simp [h]

/-- The state an evaluation stores carries the monitor's id. -/
theorem evaluateMonitor_state_monitorId (eff : Eff) (w : Monitor)
    (campaign : Campaign) (clock : Clock) (s : Store) (ri ii : ℕ) :
    (evaluateMonitor eff w campaign clock s ri ii).state.monitorId = w.id := by
  have hgen := evaluateMonitor_genval eff w campaign clock s ri ii _ _ _ _ rfl rfl
  rw [hgen, evalWithValues_state]
  exact (computeNewState_base _ _ _ _ _ _ _ _).1

/-- Case analysis of one enabled batch-loop iteration: the stored state is
upserted, metric values are untouched, and the alarm list either gets every
active alarm of the monitor auto-resolved (state OK), stays unchanged
(still in alarm), or gains exactly one fresh active alarm (transition into
alarm). -/
theorem stepMonitor_cases (eff : Eff) (campaign : Campaign) (clock : Clock)
    (w : Monitor) (acc : BatchAcc) (hen : w.enabled = true)
    (hnd : (acc.store.alarms.map (·.id)).Nodup)
    (hfresh : eff.ids acc.ii ∉ acc.store.alarms.map (·.id)) :
    ((stepMonitor eff campaign clock acc w).store.monitorStates
        = upsertMonitorState acc.store.monitorStates
            { (evaluateMonitor eff w campaign clock acc.store acc.ri acc.ii).state with
                updatedAt := clock.nowIso })
    ∧ ((stepMonitor eff campaign clock acc w).store.metricValues
        = acc.store.metricValues)
    ∧ ((stepMonitor eff campaign clock acc w).ii
        = (evaluateMonitor eff w campaign clock acc.store acc.ri acc.ii).ii)
    ∧ (((evaluateMonitor eff w campaign clock acc.store acc.ri acc.ii).state.state = .OK
        ∧ (stepMonitor eff campaign clock acc w).store.alarms
            = acc.store.alarms.map (autoResolveUpd w.id clock.nowIso)
        ∧ (evaluateMonitor eff w campaign clock acc.store acc.ri acc.ii).alarm = none
        ∧ (evaluateMonitor eff w campaign clock acc.store acc.ri acc.ii).ii = acc.ii)
      ∨ ((evaluateMonitor eff w campaign clock acc.store acc.ri acc.ii).state.state
            = .IN_ALARM
        ∧ monIsInAlarmB acc.store w.id = true
        ∧ (stepMonitor eff campaign clock acc w).store.alarms = acc.store.alarms
        ∧ (evaluateMonitor eff w campaign clock acc.store acc.ri acc.ii).alarm = none
        ∧ (evaluateMonitor eff w campaign clock acc.store acc.ri acc.ii).ii = acc.ii)
      ∨ ((evaluateMonitor eff w campaign clock acc.store acc.ri acc.ii).state.state
            = .IN_ALARM
        ∧ monIsInAlarmB acc.store w.id = false
        ∧ (stepMonitor eff campaign clock acc w).store.alarms
            = acc.store.alarms ++ [builtAlarm w campaign
                (evaluateMonitor eff w campaign clock acc.store acc.ri acc.ii).state
                (eff.ids acc.ii)]
        ∧ (evaluateMonitor eff w campaign clock acc.store acc.ri acc.ii).alarm
            = some (builtAlarm w campaign
                (evaluateMonitor eff w campaign clock acc.store acc.ri acc.ii).state
                (eff.ids acc.ii))
        ∧ (evaluateMonitor eff w campaign clock acc.store acc.ri acc.ii).ii
            = acc.ii + 1)) := by
  set CV := (generateCurrentMetricValue eff campaign w.metricId 0 clock acc.ri).1
    with hCV
  set RV := (generateCurrentMetricValue eff campaign w.metricId 0 clock acc.ri).2
    with hRV
  set EV := (generateExpectedValue eff campaign w.metricId RV).1 with hEV
  set RV2 := (generateExpectedValue eff campaign w.metricId RV).2 with hRV2
  have hgen := evaluateMonitor_genval eff w campaign clock acc.store acc.ri acc.ii
    CV EV RV RV2 rfl rfl
  have hstep : stepMonitor eff campaign clock acc w =
      { states := acc.states ++ [(evaluateMonitor eff w campaign clock acc.store
          acc.ri acc.ii).state]
        newAlarms := acc.newAlarms ++ (evaluateMonitor eff w campaign clock acc.store
          acc.ri acc.ii).alarm.toList
        store := autoResolveAlarms w
          (evaluateMonitor eff w campaign clock acc.store acc.ri acc.ii).state
          (evaluateMonitor eff w campaign clock acc.store acc.ri acc.ii).store
          clock.nowIso
        ri := (evaluateMonitor eff w campaign clock acc.store acc.ri acc.ii).ri
        ii := (evaluateMonitor eff w campaign clock acc.store acc.ri acc.ii).ii } := by
    unfold stepMonitor
    rw [if_neg (by simp [hen])]
  rw [hstep]
  cases hs : (evaluateMonitor eff w campaign clock acc.store acc.ri acc.ii).state.state
  case OK =>
    have hsc : (computeNewState eff w campaign clock acc.store CV EV RV2).1.state
        = .OK := by
      rw [← evalWithValues_state, ← hgen]
      exact hs
    have hncr : ¬((computeNewState eff w campaign clock acc.store CV EV RV2).1.state
        = .IN_ALARM ∧ monIsInAlarmB acc.store w.id = false) := by
      rintro ⟨h1, -⟩
      rw [hsc] at h1
      cases h1
    have halarms : (evaluateMonitor eff w campaign clock acc.store acc.ri
        acc.ii).store.alarms = acc.store.alarms := by
      rw [hgen, evalWithValues_store_alarms, if_neg hncr]
    have hauto := autoResolveAlarms_ok_map w
      (evaluateMonitor eff w campaign clock acc.store acc.ri acc.ii).state
      (evaluateMonitor eff w campaign clock acc.store acc.ri acc.ii).store
      clock.nowIso hs (by rw [halarms]; exact hnd)
    refine ⟨?_, ?_, rfl, Or.inl ⟨rfl, ?_, ?_, ?_⟩⟩
    · rw [hauto]
      show (evaluateMonitor eff w campaign clock acc.store acc.ri
        acc.ii).store.monitorStates = _
      rw [hgen, evalWithValues_store_monitorStates, evalWithValues_state]
    · rw [hauto]
      show (evaluateMonitor eff w campaign clock acc.store acc.ri
        acc.ii).store.metricValues = _
      rw [hgen, evalWithValues_store_metricValues]
    · rw [hauto]
      show (evaluateMonitor eff w campaign clock acc.store acc.ri
        acc.ii).store.alarms.map (autoResolveUpd w.id clock.nowIso) = _
      rw [halarms]
    · rw [hgen, evalWithValues_alarm, if_neg hncr]
    · rw [hgen, evalWithValues_ii, if_neg hncr]
  case IN_ALARM =>
    have hsc : (computeNewState eff w campaign clock acc.store CV EV RV2).1.state
        = .IN_ALARM := by
      rw [← evalWithValues_state, ← hgen]
      exact hs
    have hnok : ¬((evaluateMonitor eff w campaign clock acc.store acc.ri
        acc.ii).state.state = .OK) := by
      rw [hs]
      intro h
      cases h
    have hauto : autoResolveAlarms w
        (evaluateMonitor eff w campaign clock acc.store acc.ri acc.ii).state
        (evaluateMonitor eff w campaign clock acc.store acc.ri acc.ii).store
        clock.nowIso
        = (evaluateMonitor eff w campaign clock acc.store acc.ri acc.ii).store := by
      rw [autoResolveAlarms_eq, if_neg hnok]
    cases hw : monIsInAlarmB acc.store w.id
    case true =>
      have hncr : ¬((computeNewState eff w campaign clock acc.store CV EV RV2).1.state
          = .IN_ALARM ∧ monIsInAlarmB acc.store w.id = false) := by
        rintro ⟨-, h2⟩
        rw [hw] at h2
        cases h2
      refine ⟨?_, ?_, rfl, Or.inr (Or.inl ⟨rfl, rfl, ?_, ?_, ?_⟩)⟩
      · rw [hauto, hgen, evalWithValues_store_monitorStates, evalWithValues_state]
      · rw [hauto, hgen, evalWithValues_store_metricValues]
      · rw [hauto, hgen, evalWithValues_store_alarms, if_neg hncr]
      · rw [hgen, evalWithValues_alarm, if_neg hncr]
      · rw [hgen, evalWithValues_ii, if_neg hncr]
    case false =>
      have hcr : ((computeNewState eff w campaign clock acc.store CV EV RV2).1.state
          = .IN_ALARM ∧ monIsInAlarmB acc.store w.id = false) := ⟨hsc, hw⟩
      refine ⟨?_, ?_, rfl, Or.inr (Or.inr ⟨rfl, rfl, ?_, ?_, ?_⟩)⟩
      · rw [hauto, hgen, evalWithValues_store_monitorStates, evalWithValues_state]
      · rw [hauto, hgen, evalWithValues_store_metricValues]
      · rw [hauto, hgen, evalWithValues_store_alarms, if_pos hcr,
          upsertAlarm_fresh _ _ (by simpa [builtAlarm] using hfresh),
          evalWithValues_state]
      · rw [hgen, evalWithValues_alarm, if_pos hcr, evalWithValues_state]
      · rw [hgen, evalWithValues_ii, if_pos hcr]

/-- Stores are equal componentwise. -/
theorem store_comp_eq (s t : Store) (h1 : s.monitorStates = t.monitorStates)
    (h2 : s.alarms = t.alarms) (h3 : s.metricValues = t.metricValues) : s = t := by
  cases s
  cases t
  simp_all

/-- Monitor states are equal componentwise. -/
theorem monitorStateData_comp_eq (a b : MonitorStateData)
    (h1 : a.monitorId = b.monitorId) (h2 : a.state = b.state)
    (h3 : a.currentValue = b.currentValue) (h4 : a.expectedValue = b.expectedValue)
    (h5 : a.anomalyScore = b.anomalyScore) (h6 : a.enteredStateAt = b.enteredStateAt)
    (h7 : a.updatedAt = b.updatedAt)
    (h8 : a.dataPointsBreached = b.dataPointsBreached)
    (h9 : a.dimensions = b.dimensions) : a = b := by
  cases a
  cases b
  simp_all

/-- The anomaly score of the computed state. -/
theorem computeNewState_anomalyScore (eff : Eff) (monitor : Monitor)
    (campaign : Campaign) (clock : Clock) (s : Store) (cv ev : ℚ) (ri : ℕ) :
    (computeNewState eff monitor campaign clock s cv ev ri).1.anomalyScore
      = |calculateDeviation cv ev| / 100
          / getSensitivityThreshold monitor.sensitivity := by
  simp [computeNewState, apply_ite MonitorStateData.anomalyScore]

/-- A non-granular monitor stores no dimensional sub-results. -/
theorem computeNewState_dimensions_none (eff : Eff) (monitor : Monitor)
    (campaign : Campaign) (clock : Clock) (s : Store) (cv ev : ℚ) (ri : ℕ)
    (hng : ¬(monitor.monitorType = .GRANULAR ∧ monitor.granularDimensions.isSome)) :
    (computeNewState eff monitor campaign clock s cv ev ri).1.dimensions = none := by
  simp [computeNewState, hng]

/-- A non-composite monitor stores no breach count. -/
theorem computeNewState_dpb_simple (eff : Eff) (monitor : Monitor)
    (campaign : Campaign) (clock : Clock) (s : Store) (cv ev : ℚ) (ri : ℕ)
    (hnc : ¬(monitor.monitorType = .COMPOSITE ∧ monitor.compositeConfig.isSome)) :
    (computeNewState eff monitor campaign clock s cv ev ri).1.dataPointsBreached
      = none := by
  simp [computeNewState, hnc, apply_ite MonitorStateData.dataPointsBreached]

/-- A non-granular monitor draws no randomness in the state computation. -/
theorem computeNewState_snd (eff : Eff) (monitor : Monitor) (campaign : Campaign)
    (clock : Clock) (s : Store) (cv ev : ℚ) (ri : ℕ)
    (hng : ¬(monitor.monitorType = .GRANULAR ∧ monitor.granularDimensions.isSome)) :
    (computeNewState eff monitor campaign clock s cv ev ri).2 = ri := by
  simp [computeNewState, hng]

/-- The simple CPA breach test at current `0` against expected `27`. -/
theorem isInAlarm_0_27 : isInAlarm 0 27 .Balanced = true := by
  rw [isInAlarm_eq]
  norm_num [calculateDeviation, getSensitivityThreshold]

/-- The computed state of the simple CPA monitor at current `0`,
expected `27`: in alarm with anomaly score `4`. -/
theorem computeNewState_c1_simple (eff : Eff) (clock : Clock) (s : Store) (ri : ℕ) :
    computeNewState eff cpaMonitor campaignC1 clock s 0 27 ri =
      (⟨"m", .IN_ALARM, 0, 27, 4,
        (if monIsInAlarmB s "m" = false then clock.nowIso
         else jsOrS ((getMonitorState s "m").map (·.enteredStateAt)) clock.nowIso),
        clock.nowIso, none, none⟩, ri) := by
  have hdev : calculateDeviation 0 27 = -100 := by
    norm_num [calculateDeviation]
  refine Prod.ext ?_ (computeNewState_snd _ _ _ _ _ _ _ _ (by decide))
  refine monitorStateData_comp_eq _ _ ?_ ?_ ?_ ?_ ?_ ?_ ?_ ?_ ?_
  · exact (computeNewState_base _ _ _ _ _ _ _ _).1
  · rw [computeNewState_state_simple _ _ _ _ _ _ _ _ (by decide),
      show cpaMonitor.sensitivity = .Balanced from rfl, if_pos isInAlarm_0_27]
  · exact (computeNewState_base _ _ _ _ _ _ _ _).2.1
  · exact (computeNewState_base _ _ _ _ _ _ _ _).2.2.1
  · rw [computeNewState_anomalyScore, hdev, abs_of_nonpos (by norm_num)]
    norm_num [cpaMonitor, getSensitivityThreshold]
  · rw [computeNewState_enteredStateAt]
    simp [isInAlarm_0_27, cpaMonitor]
  · exact (computeNewState_base _ _ _ _ _ _ _ _).2.2.2
  · exact computeNewState_dpb_simple _ _ _ _ _ _ _ _ (by decide)
  · exact computeNewState_dimensions_none _ _ _ _ _ _ _ _ (by decide)

/-- The computed state of the composite CPA monitor at current `0`,
expected `27` over an empty metric history: OK with one breach of the
required two, while the simple breach flag still governs `enteredStateAt`. -/
theorem computeNewState_c1_comp_empty (eff : Eff) (clock : Clock) (s : Store)
    (ri : ℕ) (hmv : s.metricValues = []) :
    computeNewState eff cpaCompositeMonitor campaignC1 clock s 0 27 ri =
      (⟨"m", .OK, 0, 27, 4,
        (if monIsInAlarmB s "m" = false then clock.nowIso
         else jsOrS ((getMonitorState s "m").map (·.enteredStateAt)) clock.nowIso),
        clock.nowIso, some 1, none⟩, ri) := by
  have hdev : calculateDeviation 0 27 = -100 := by
    norm_num [calculateDeviation]
  have hcc := composite_c1_empty s hmv
  refine Prod.ext ?_ (computeNewState_snd _ _ _ _ _ _ _ _ (by decide))
  refine monitorStateData_comp_eq _ _ ?_ ?_ ?_ ?_ ?_ ?_ ?_ ?_ ?_
  · exact (computeNewState_base _ _ _ _ _ _ _ _).1
  · rw [(computeNewState_state_composite _ _ _ _ _ _ _ _ rfl ⟨2, 3⟩ rfl).1, hcc]
    rfl
  · exact (computeNewState_base _ _ _ _ _ _ _ _).2.1
  · exact (computeNewState_base _ _ _ _ _ _ _ _).2.2.1
  · rw [computeNewState_anomalyScore, hdev, abs_of_nonpos (by norm_num)]
    norm_num [cpaCompositeMonitor, getSensitivityThreshold]
  · rw [computeNewState_enteredStateAt]
    simp [isInAlarm_0_27, cpaCompositeMonitor]
  · exact (computeNewState_base _ _ _ _ _ _ _ _).2.2.2
  · rw [(computeNewState_state_composite _ _ _ _ _ _ _ _ rfl ⟨2, 3⟩ rfl).2, hcc]
  · exact computeNewState_dimensions_none _ _ _ _ _ _ _ _ (by decide)

/-- First operation of `opsFlip`: the simple monitor transitions into alarm
and creates the active alarm `alFlip1`. -/
theorem applyOp_flip1 :
    applyOp emptyStore
        (.evalMonitor (effA 0 "a1") cpaMonitor campaignC1 (clockAt "t1"))
      = storeFlip1 := by
  have hdev : calculateDeviation 0 27 = -100 := by
    norm_num [calculateDeviation]
  have habs : |(-100 : ℚ)| = 100 := by
    rw [abs_of_nonpos (by norm_num)]
    norm_num
  show (evaluateMonitor (effA 0 "a1") cpaMonitor campaignC1 (clockAt "t1")
      emptyStore 0 0).store = storeFlip1
  rw [evaluateMonitor_genval (effA 0 "a1") cpaMonitor campaignC1 (clockAt "t1")
    emptyStore 0 0 0 27 (0 + 1) (0 + 1 + 1) (genCur_c1_cpa 0 "a1" "t1" 0)
    (genExp_c1_cpa_zero "a1" (0 + 1))]
  refine store_comp_eq _ _ ?_ ?_ ?_
  · rw [evalWithValues_store_monitorStates, computeNewState_c1_simple]
    simp [emptyStore, storeFlip1, stFlip1, upsertMonitorState, monIsInAlarmB,
      getMonitorState, clockAt]
  · rw [evalWithValues_store_alarms, computeNewState_c1_simple,
      if_pos ⟨rfl, by decide⟩]
    norm_num [upsertAlarm, emptyStore, storeFlip1, alFlip1, builtAlarm, hdev,
      habs, calculateSeverity, calculateEstimatedImpact, cpaMonitor, campaignC1,
      effA, clockAt, monIsInAlarmB, getMonitorState, jsOrS]
  · rw [evalWithValues_store_metricValues]
    rfl

/-- Second operation of `opsFlip`: the composite variant of the same monitor
id comes back OK on the empty history; the stored state flips to OK while
the active alarm `alFlip1` stays untouched (no auto-resolve on a bare
evaluation). -/
theorem applyOp_flip2 :
    applyOp storeFlip1
        (.evalMonitor (effA 0 "zz") cpaCompositeMonitor campaignC1 (clockAt "t2"))
      = storeFlip2 := by
  show (evaluateMonitor (effA 0 "zz") cpaCompositeMonitor campaignC1 (clockAt "t2")
      storeFlip1 0 0).store = storeFlip2
  rw [evaluateMonitor_genval (effA 0 "zz") cpaCompositeMonitor campaignC1
    (clockAt "t2") storeFlip1 0 0 0 27 (0 + 1) (0 + 1 + 1)
    (genCur_c1_cpa 0 "zz" "t2" 0) (genExp_c1_cpa_zero "zz" (0 + 1))]
  refine store_comp_eq _ _ ?_ ?_ ?_
  · rw [evalWithValues_store_monitorStates, computeNewState_c1_comp_empty _ _ _ _ rfl]
    simp [storeFlip1, storeFlip2, stFlip1, stFlip2, upsertMonitorState,
      monIsInAlarmB, getMonitorState, clockAt, List.find?, jsOrS]
  · rw [evalWithValues_store_alarms, computeNewState_c1_comp_empty _ _ _ _ rfl,
      if_neg (by decide)]
    rfl
  · rw [evalWithValues_store_metricValues]
    rfl

/-- Third operation of `opsFlip`: the simple monitor transitions into alarm
again (the stored state is OK) and creates a second active alarm `alFlip3`
while `alFlip1` is still active. -/
theorem applyOp_flip3 :
    applyOp storeFlip2
        (.evalMonitor (effA 0 "a3") cpaMonitor campaignC1 (clockAt "t3"))
      = storeFlip3 := by
  have hdev : calculateDeviation 0 27 = -100 := by
    norm_num [calculateDeviation]
  have habs : |(-100 : ℚ)| = 100 := by
    rw [abs_of_nonpos (by norm_num)]
    norm_num
  show (evaluateMonitor (effA 0 "a3") cpaMonitor campaignC1 (clockAt "t3")
      storeFlip2 0 0).store = storeFlip3
  rw [evaluateMonitor_genval (effA 0 "a3") cpaMonitor campaignC1 (clockAt "t3")
    storeFlip2 0 0 0 27 (0 + 1) (0 + 1 + 1) (genCur_c1_cpa 0 "a3" "t3" 0)
    (genExp_c1_cpa_zero "a3" (0 + 1))]
  refine store_comp_eq _ _ ?_ ?_ ?_
  · rw [evalWithValues_store_monitorStates, computeNewState_c1_simple]
    simp [storeFlip2, storeFlip3, stFlip2, stFlip3, upsertMonitorState,
      monIsInAlarmB, getMonitorState, clockAt, List.find?]
  · rw [evalWithValues_store_alarms, computeNewState_c1_simple,
      if_pos ⟨rfl, by decide⟩]
    norm_num [upsertAlarm, storeFlip2, storeFlip3, alFlip1, alFlip3, builtAlarm,
      hdev, habs, calculateSeverity, calculateEstimatedImpact, cpaMonitor,
      campaignC1, effA, clockAt, monIsInAlarmB, getMonitorState, jsOrS,
      stFlip2, List.find?]
    decide
  · rw [evalWithValues_store_metricValues]
    rfl

/-- The first operation of `opsFlip` reports the created alarm `alFlip1`. -/
theorem evalFlip1_alarm :
    (evaluateMonitor (effA 0 "a1") cpaMonitor campaignC1 (clockAt "t1")
      emptyStore 0 0).alarm = some alFlip1 := by
  have hdev : calculateDeviation 0 27 = -100 := by
    norm_num [calculateDeviation]
  have habs : |(-100 : ℚ)| = 100 := by
    rw [abs_of_nonpos (by norm_num)]
    norm_num
  rw [evaluateMonitor_genval (effA 0 "a1") cpaMonitor campaignC1 (clockAt "t1")
    emptyStore 0 0 0 27 (0 + 1) (0 + 1 + 1) (genCur_c1_cpa 0 "a1" "t1" 0)
    (genExp_c1_cpa_zero "a1" (0 + 1))]
  rw [evalWithValues_alarm, computeNewState_c1_simple, if_pos ⟨rfl, by decide⟩]
  norm_num [builtAlarm, alFlip1, hdev, habs, calculateSeverity,
    calculateEstimatedImpact, cpaMonitor, campaignC1, effA, clockAt,
    monIsInAlarmB, getMonitorState, emptyStore, jsOrS]

/-- C1 counterexample: three bare `evaluateMonitor` engine operations from
the empty record store (the simple CPA monitor, a composite monitor with
the same monitor id, then the simple monitor again) leave two distinct
`ACTIVE` alarms for monitor `"m"` in the store — a bare evaluation never
auto-resolves, and alarm creation checks only the stored monitor state,
not whether an active alarm for the monitor already exists. -/
theorem active_alarm_cex :
    (∀ op ∈ opsFlip, op.isBareEval = true)
    ∧ runOps emptyStore opsFlip = storeFlip3
    ∧ activeCount (runOps emptyStore opsFlip) "m" = 2
    ∧ alFlip1 ∈ (runOps emptyStore opsFlip).alarms
    ∧ alFlip3 ∈ (runOps emptyStore opsFlip).alarms
    ∧ alFlip1.state = .ACTIVE ∧ alFlip3.state = .ACTIVE
    ∧ alFlip1.monitorId = "m" ∧ alFlip3.monitorId = "m" ∧ alFlip1 ≠ alFlip3 := by
  have hrun : runOps emptyStore opsFlip = storeFlip3 := by
    simp only [runOps, opsFlip, List.foldl_cons, List.foldl_nil,
      applyOp_flip1, applyOp_flip2, applyOp_flip3]
  refine ⟨by decide, hrun, ?_, ?_, ?_, rfl, rfl, rfl, rfl, by decide⟩
  · rw [hrun]
    decide
  · rw [hrun]
    decide
  · rw [hrun]
    decide

/-- The active-alarm count only reads the alarm list. -/
theorem activeCount_congr (s t : Store) (m : String) (h : s.alarms = t.alarms) :
    activeCount s m = activeCount t m := by
  simp [activeCount, h]

/-- `monIsInAlarmB` only reads the monitor-state list. -/
theorem monIsInAlarmB_congr (s t : Store) (x : String)
    (h : s.monitorStates = t.monitorStates) :
    monIsInAlarmB s x = monIsInAlarmB t x := by
  simp [monIsInAlarmB, getMonitorState, h]

/-- Resolving an alarm id never increases any monitor's active count. -/
theorem count_resolveAlarmList_le (q : String) (method : ResolutionMethod)
    (now : String) (l : List Alarm) (m : String) :
    ((resolveAlarmList q method now l).filter
        (fun a => decide (a.monitorId = m) && decide (a.state = .ACTIVE))).length
      ≤ (l.filter
        (fun a => decide (a.monitorId = m) && decide (a.state = .ACTIVE))).length := by
  induction l with
  | nil => exact le_refl _
  | cons a rest ih =>
    simp only [resolveAlarmList]
    by_cases hid : a.id = q
    · rw [if_pos hid]
      by_cases hact : a.state = .ACTIVE
      · rw [if_pos hact, List.filter_cons, List.filter_cons,
          if_neg (by simp [resolveAlarmUpd])]
        by_cases hpa : (decide (a.monitorId = m) && decide (a.state = .ACTIVE))
            = true
        · rw [if_pos hpa]
          simp only [List.length_cons]
          exact Nat.le_succ_of_le (le_refl _)
        · rw [if_neg hpa]
      · rw [if_neg hact]
    · rw [if_neg hid, List.filter_cons, List.filter_cons]
      by_cases hpa : (decide (a.monitorId = m) && decide (a.state = .ACTIVE)) = true
      · rw [if_pos hpa, if_pos hpa]
        simpa using ih
      · rw [if_neg hpa, if_neg hpa]
        exact ih

/-- Dismissing an alarm id never increases any monitor's active count. -/
theorem count_dismissAlarmList_le (q now : String) (l : List Alarm) (m : String) :
    ((dismissAlarmList q now l).filter
        (fun a => decide (a.monitorId = m) && decide (a.state = .ACTIVE))).length
      ≤ (l.filter
        (fun a => decide (a.monitorId = m) && decide (a.state = .ACTIVE))).length := by
  induction l with
  | nil => exact le_refl _
  | cons a rest ih =>
    simp only [dismissAlarmList]
    by_cases hid : a.id = q
    · rw [if_pos hid]
      by_cases hact : a.state = .ACTIVE
      · rw [if_pos hact, List.filter_cons, List.filter_cons,
          if_neg (by simp [dismissAlarmUpd])]
        by_cases hpa : (decide (a.monitorId = m) && decide (a.state = .ACTIVE))
            = true
        · rw [if_pos hpa]
          simp only [List.length_cons]
          exact Nat.le_succ_of_le (le_refl _)
        · rw [if_neg hpa]
      · rw [if_neg hact]
    · rw [if_neg hid, List.filter_cons, List.filter_cons]
      by_cases hpa : (decide (a.monitorId = m) && decide (a.state = .ACTIVE)) = true
      · rw [if_pos hpa, if_pos hpa]
        simpa using ih
      · rw [if_neg hpa, if_neg hpa]
        exact ih

/-- Dismissing never changes alarm ids. -/
theorem dismissAlarmList_ids (q now : String) (l : List Alarm) :
    (dismissAlarmList q now l).map (fun a : Alarm => a.id)
      = l.map (fun a : Alarm => a.id) := by
  induction l with
  | nil => rfl
  | cons a rest ih =>
    simp only [dismissAlarmList]
    by_cases hid : a.id = q
    · rw [if_pos hid]
      by_cases hact : a.state = .ACTIVE
      · rw [if_pos hact]
        simp [dismissAlarmUpd]
      · rw [if_neg hact]
    · rw [if_neg hid]
      simp [ih]

/-- `resolveAlarm` preserves the engine invariant. -/
theorem inv_resolveAlarm (s : Store) (q : String) (method : ResolutionMethod)
    (now : String) (hInv : Inv s) : Inv (resolveAlarm s q method now) := by
  obtain ⟨hndA, hndS, hcnt⟩ := hInv
  refine ⟨?_, hndS, ?_⟩
  · show ((resolveAlarmList q method now s.alarms).map (fun a : Alarm => a.id)).Nodup
    rw [resolveAlarmList_ids]
    exact hndA
  · intro m
    have hle : activeCount (resolveAlarm s q method now) m ≤ activeCount s m :=
      count_resolveAlarmList_le q method now s.alarms m
    refine ⟨le_trans hle (hcnt m).1, fun hmon => ?_⟩
    have hmon' : monIsInAlarmB s m = false := by
      rw [monIsInAlarmB_congr s (resolveAlarm s q method now) m rfl]
      exact hmon
    have h0 := (hcnt m).2 hmon'
    omega

/-- `dismissAlarm` preserves the engine invariant. -/
theorem inv_dismissAlarm (s : Store) (q now : String) (hInv : Inv s) :
    Inv (dismissAlarm s q now) := by
  obtain ⟨hndA, hndS, hcnt⟩ := hInv
  refine ⟨?_, hndS, ?_⟩
  · show ((dismissAlarmList q now s.alarms).map (fun a : Alarm => a.id)).Nodup
    rw [dismissAlarmList_ids]
    exact hndA
  · intro m
    have hle : activeCount (dismissAlarm s q now) m ≤ activeCount s m :=
      count_dismissAlarmList_le q now s.alarms m
    refine ⟨le_trans hle (hcnt m).1, fun hmon => ?_⟩
    have hmon' : monIsInAlarmB s m = false := by
      rw [monIsInAlarmB_congr s (dismissAlarm s q now) m rfl]
      exact hmon
    have h0 := (hcnt m).2 hmon'
    omega

/-- Every monitor id after an upsert is a previous id or the upserted one. -/
theorem upsertMonitorState_ids_mem (l : List MonitorStateData)
    (st : MonitorStateData) (y : String)
    (hy : y ∈ (upsertMonitorState l st).map (fun q => q.monitorId)) :
    y ∈ l.map (fun q => q.monitorId) ∨ y = st.monitorId := by
  induction l with
  | nil =>
    right
    simpa [upsertMonitorState] using hy
  | cons x xs ih =>
    simp only [upsertMonitorState] at hy
    by_cases hx : x.monitorId = st.monitorId
    · rw [if_pos hx] at hy
      simp only [List.map_cons, List.mem_cons] at hy
      rcases hy with hy | hy
      · exact Or.inr hy
      · exact Or.inl (by simp [List.mem_cons, hy])
    · rw [if_neg hx] at hy
      simp only [List.map_cons, List.mem_cons] at hy
      rcases hy with hy | hy
      · exact Or.inl (by simp [hy])
      · rcases ih hy with h | h
        · exact Or.inl (by simp [List.mem_cons, h])
        · exact Or.inr h

/-- Upserting a monitor state keeps the stored monitor ids duplicate-free. -/
theorem upsertMonitorState_ids_nodup (l : List MonitorStateData)
    (st : MonitorStateData) (h : (l.map (fun q => q.monitorId)).Nodup) :
    ((upsertMonitorState l st).map (fun q => q.monitorId)).Nodup := by
  induction l with
  | nil => simp [upsertMonitorState]
  | cons x xs ih =>
    simp only [List.map_cons, List.nodup_cons] at h
    simp only [upsertMonitorState]
    by_cases hx : x.monitorId = st.monitorId
    · simp only [if_pos hx, List.map_cons, List.nodup_cons]
      exact ⟨by rw [← hx]; exact h.1, h.2⟩
    · simp only [if_neg hx, List.map_cons, List.nodup_cons]
      refine ⟨fun hmem => ?_, ih h.2⟩
      rcases upsertMonitorState_ids_mem xs st x.monitorId hmem with h1 | h1
      · exact h.1 h1
      · exact hx h1

/-- The pointwise auto-resolution update keeps the alarm id. -/
theorem autoResolveUpd_id (mid now : String) (b : Alarm) :
    (autoResolveUpd mid now b).id = b.id := by
  unfold autoResolveUpd
  split
  · rfl
  · rfl

/-- Auto-resolution keeps the list of alarm ids. -/
theorem map_autoResolveUpd_ids (l : List Alarm) (mid now : String) :
    (l.map (autoResolveUpd mid now)).map (fun a : Alarm => a.id)
      = l.map (fun a : Alarm => a.id) := by
  rw [List.map_map]
  exact List.map_congr_left (fun b _ => autoResolveUpd_id mid now b)

/-- The alarm snapshot carries the given id, the monitor's id, and is
active. -/
theorem builtAlarm_fields (monitor : Monitor) (campaign : Campaign)
    (st : MonitorStateData) (aid : String) :
    (builtAlarm monitor campaign st aid).id = aid
    ∧ (builtAlarm monitor campaign st aid).monitorId = monitor.id
    ∧ (builtAlarm monitor campaign st aid).state = .ACTIVE :=
  ⟨rfl, rfl, rfl⟩

/-- The alarm probe of a store whose states were upserted. -/
theorem monIsInAlarmB_after_upsert (t s : Store) (st : MonitorStateData)
    (h : t.monitorStates = upsertMonitorState s.monitorStates st) (x : String) :
    monIsInAlarmB t x
      = if st.monitorId = x then decide (st.state = .IN_ALARM)
        else monIsInAlarmB s x := by
  by_cases hx : st.monitorId = x
  · rw [if_pos hx]
    unfold monIsInAlarmB getMonitorState
    rw [h, ← hx, find_upsertMonitorState_self]
  · rw [if_neg hx]
    unfold monIsInAlarmB getMonitorState
    rw [h, find_upsertMonitorState_ne _ _ _ hx]

/-- One batch-loop iteration preserves the engine invariant and the uuid
bookkeeping, and never rewinds the uuid stream. -/
theorem inv_stepMonitor (eff : Eff) (campaign : Campaign) (clock : Clock)
    (A : List String) (hinj : Function.Injective eff.ids)
    (hA : ∀ j, eff.ids j ∉ A) (acc : BatchAcc) (w : Monitor)
    (hInv : Inv acc.store) (hids : IdsOK A eff acc.store acc.ii) :
    Inv (stepMonitor eff campaign clock acc w).store
    ∧ IdsOK A eff (stepMonitor eff campaign clock acc w).store
        (stepMonitor eff campaign clock acc w).ii
    ∧ acc.ii ≤ (stepMonitor eff campaign clock acc w).ii := by
  obtain ⟨hndA, hndS, hcnt⟩ := hInv
  by_cases hen : w.enabled = false
  · unfold stepMonitor
    rw [if_pos hen]
    exact ⟨⟨hndA, hndS, hcnt⟩, hids, Nat.le_refl _⟩
  · have hen' : w.enabled = true := by
      cases hwe : w.enabled
      · exact absurd hwe hen
      · rfl
    have hfresh : eff.ids acc.ii ∉ acc.store.alarms.map (fun a : Alarm => a.id) := by
      intro hmem
      rcases hids _ hmem with h1 | ⟨j, hj, hje⟩
      · exact hA acc.ii h1
      · have := hinj hje
        omega
    obtain ⟨hms, hmv, hii, hcases⟩ :=
      stepMonitor_cases eff campaign clock w acc hen' hndA hfresh
    have hsid : (evaluateMonitor eff w campaign clock acc.store acc.ri
        acc.ii).state.monitorId = w.id :=
      evaluateMonitor_state_monitorId eff w campaign clock acc.store acc.ri acc.ii
    have hndS' : ((stepMonitor eff campaign clock acc w).store.monitorStates.map
        (fun q => q.monitorId)).Nodup := by
      rw [hms]
      exact upsertMonitorState_ids_nodup _ _ hndS
    have hupd : ({ (evaluateMonitor eff w campaign clock acc.store acc.ri
        acc.ii).state with updatedAt := clock.nowIso }).monitorId = w.id := hsid
    have hupds : ({ (evaluateMonitor eff w campaign clock acc.store acc.ri
        acc.ii).state with updatedAt := clock.nowIso }).state
        = (evaluateMonitor eff w campaign clock acc.store acc.ri
            acc.ii).state.state := rfl
    have hmonB := monIsInAlarmB_after_upsert
      (stepMonitor eff campaign clock acc w).store acc.store _ hms
    rw [hupd] at hmonB
    simp only [hupds] at hmonB
    rcases hcases with ⟨hok, halarms, -, hiieq⟩ | ⟨hia, hwas, halarms, -, hiieq⟩
      | ⟨hia, hwas, halarms, -, hiieq⟩
    · have hcnt_self : activeCount (stepMonitor eff campaign clock acc w).store
          w.id = 0 := by
        unfold activeCount
        rw [halarms, filter_map_autoResolveUpd_self]
        rfl
      have hcnt_other : ∀ m, ¬m = w.id →
          activeCount (stepMonitor eff campaign clock acc w).store m
            = activeCount acc.store m := by
        intro m hm
        unfold activeCount
        rw [halarms, filter_map_autoResolveUpd_other _ _ _ _ hm]
      refine ⟨⟨?_, hndS', ?_⟩, ?_, ?_⟩
      · rw [halarms, map_autoResolveUpd_ids]
        exact hndA
      · intro m
        by_cases hm : m = w.id
        · subst hm
          exact ⟨Nat.le_trans (Nat.le_of_eq hcnt_self) (Nat.zero_le 1),
            fun _ => hcnt_self⟩
        · have hc := hcnt_other m hm
          refine ⟨hc ▸ (hcnt m).1, fun hmon => ?_⟩
          rw [hmonB m, if_neg (fun h => hm h.symm)] at hmon
          rw [hc]
          exact (hcnt m).2 hmon
      · intro x hx
        rw [halarms, map_autoResolveUpd_ids] at hx
        rcases hids x hx with h | ⟨j, hj, hje⟩
        · exact Or.inl h
        · exact Or.inr ⟨j, by rw [hii, hiieq]; exact hj, hje⟩
      · rw [hii, hiieq]
    · refine ⟨⟨by rw [halarms]; exact hndA, hndS', ?_⟩, ?_, ?_⟩
      · intro m
        have hc : activeCount (stepMonitor eff campaign clock acc w).store m
            = activeCount acc.store m := by
          unfold activeCount
          rw [halarms]
        by_cases hm : m = w.id
        · subst hm
          refine ⟨hc ▸ (hcnt w.id).1, fun hmon => ?_⟩
          rw [hmonB w.id, if_pos rfl, hia] at hmon
          simp at hmon
        · refine ⟨hc ▸ (hcnt m).1, fun hmon => ?_⟩
          rw [hmonB m, if_neg (fun h => hm h.symm)] at hmon
          rw [hc]
          exact (hcnt m).2 hmon
      · intro x hx
        rw [halarms] at hx
        rcases hids x hx with h | ⟨j, hj, hje⟩
        · exact Or.inl h
        · exact Or.inr ⟨j, by rw [hii, hiieq]; exact hj, hje⟩
      · rw [hii, hiieq]
    · have hbmid : (builtAlarm w campaign (evaluateMonitor eff w campaign clock
          acc.store acc.ri acc.ii).state (eff.ids acc.ii)).monitorId = w.id := rfl
      have hbst : (builtAlarm w campaign (evaluateMonitor eff w campaign clock
          acc.store acc.ri acc.ii).state (eff.ids acc.ii)).state = .ACTIVE := rfl
      have hbid : (builtAlarm w campaign (evaluateMonitor eff w campaign clock
          acc.store acc.ri acc.ii).state (eff.ids acc.ii)).id = eff.ids acc.ii := rfl
      refine ⟨⟨?_, hndS', ?_⟩, ?_, ?_⟩
      · rw [halarms, List.map_append]
        refine List.Nodup.append hndA (List.nodup_singleton _) ?_
        intro x hx1 hx2
        simp only [List.map_cons, List.map_nil, List.mem_singleton] at hx2
        rw [hx2, hbid] at hx1
        exact hfresh hx1
      · intro m
        by_cases hm : m = w.id
        · subst hm
          have h0 : activeCount acc.store w.id = 0 := (hcnt w.id).2 hwas
          have hc1 : activeCount (stepMonitor eff campaign clock acc w).store
              w.id = 1 := by
            unfold activeCount
            rw [halarms, List.filter_append, List.filter_cons,
              if_pos (by simp [hbmid, hbst]), List.length_append]
            have h0' : (acc.store.alarms.filter (fun a =>
                decide (a.monitorId = w.id) && decide (a.state = .ACTIVE))).length
                = 0 := h0
            rw [h0']
            rfl
          refine ⟨Nat.le_of_eq hc1, fun hmon => ?_⟩
          rw [hmonB w.id, if_pos rfl, hia] at hmon
          simp at hmon
        · have hc : activeCount (stepMonitor eff campaign clock acc w).store m
              = activeCount acc.store m := by
            unfold activeCount
            rw [halarms, List.filter_append, List.filter_cons,
              if_neg (by simp [hbmid, hbst]; exact fun h => hm h.symm)]
            simp
          refine ⟨hc ▸ (hcnt m).1, fun hmon => ?_⟩
          rw [hmonB m, if_neg (fun h => hm h.symm)] at hmon
          rw [hc]
          exact (hcnt m).2 hmon
      · intro x hx
        rw [halarms, List.map_append] at hx
        rcases List.mem_append.mp hx with hx | hx
        · rcases hids x hx with h | ⟨j, hj, hje⟩
          · exact Or.inl h
          · exact Or.inr ⟨j, by rw [hii, hiieq]; omega, hje⟩
        · simp only [List.map_cons, List.map_nil, List.mem_singleton] at hx
          rw [hbid] at hx
          exact Or.inr ⟨acc.ii, by rw [hii, hiieq]; omega, hx⟩
      · rw [hii, hiieq]
        exact Nat.le_succ _

/-- The batch fold preserves the engine invariant and uuid bookkeeping. -/
theorem inv_foldSteps (eff : Eff) (campaign : Campaign) (clock : Clock)
    (A : List String) (hinj : Function.Injective eff.ids)
    (hA : ∀ j, eff.ids j ∉ A) (L : List Monitor) (acc : BatchAcc)
    (hInv : Inv acc.store) (hids : IdsOK A eff acc.store acc.ii) :
    Inv (L.foldl (stepMonitor eff campaign clock) acc).store
    ∧ IdsOK A eff (L.foldl (stepMonitor eff campaign clock) acc).store
        (L.foldl (stepMonitor eff campaign clock) acc).ii
    ∧ acc.ii ≤ (L.foldl (stepMonitor eff campaign clock) acc).ii := by
  induction L generalizing acc with
  | nil => exact ⟨hInv, hids, Nat.le_refl _⟩
  | cons w L ih =>
    simp only [List.foldl_cons]
    obtain ⟨h1, h2, h3⟩ := inv_stepMonitor eff campaign clock A hinj hA acc w
      hInv hids
    obtain ⟨g1, g2, g3⟩ := ih (stepMonitor eff campaign clock acc w) h1 h2
    exact ⟨g1, g2, Nat.le_trans h3 g3⟩

/-- `evaluateAllMonitors` preserves the engine invariant when its uuid
stream is injective and fresh for the store. -/
theorem inv_evaluateAllMonitors (eff : Eff) (campaign : Campaign)
    (monitors : List Monitor) (clock : Clock) (s : Store) (ri ii : ℕ)
    (hinj : Function.Injective eff.ids)
    (hfr : ∀ j, eff.ids j ∉ s.alarms.map (fun a : Alarm => a.id))
    (hInv : Inv s) :
    Inv (evaluateAllMonitors eff campaign monitors clock s ri ii).store :=
  (inv_foldSteps eff campaign clock (s.alarms.map (fun a : Alarm => a.id)) hinj
    hfr monitors ⟨[], [], s, ri, ii⟩ hInv (fun _ hx => Or.inl hx)).1

/-- Every engine operation except a bare evaluation preserves the engine
invariant. -/
theorem inv_applyOp (s : Store) (op : EngineOp) (hInv : Inv s)
    (hfr : opFresh s op) (hnb : op.isBareEval = false) :
    Inv (applyOp s op) := by
  cases op with
  | evalMonitor eff monitor campaign clock => simp [EngineOp.isBareEval] at hnb
  | evalAll eff campaign monitors clock =>
    exact inv_evaluateAllMonitors eff campaign monitors clock s 0 0 hfr.1 hfr.2 hInv
  | resolve alarmId method now => exact inv_resolveAlarm s alarmId method now hInv
  | dismiss alarmId now => exact inv_dismissAlarm s alarmId now hInv

/-- A good run of non-bare operations preserves the engine invariant. -/
theorem inv_runOps (s : Store) (ops : List EngineOp) (hg : GoodOps s ops) :
    (∀ op ∈ ops, op.isBareEval = false) → Inv s → Inv (runOps s ops) := by
  induction hg with
  | nil s => exact fun _ h => h
  | cons s op ops hfr hg ih =>
    intro hnb hInv
    exact ih (fun o ho => hnb o (List.mem_cons_of_mem op ho))
      (inv_applyOp s op hInv hfr (hnb op (List.mem_cons_self op ops)))

/-- A store with no alarms and no stored states satisfies the invariant. -/
theorem inv_of_empty (s : Store) (ha : s.alarms = []) (hm : s.monitorStates = []) :
    Inv s := by
  refine ⟨by rw [ha]; exact List.nodup_nil, by rw [hm]; exact List.nodup_nil,
    fun m => ?_⟩
  have hc : activeCount s m = 0 := by
    unfold activeCount
    rw [ha]
    rfl
  exact ⟨by omega, fun _ => hc⟩

/-- When an evaluation reports a created alarm, the stored state was not in
alarm, the new state is, and the alarm is the built snapshot. -/
theorem evalWithValues_alarm_some (eff : Eff) (monitor : Monitor)
    (campaign : Campaign) (clock : Clock) (s : Store) (cv ev : ℚ) (ri ii : ℕ)
    (al : Alarm)
    (hal : (evalWithValues eff monitor campaign clock s cv ev ri ii).alarm
      = some al) :
    monIsInAlarmB s monitor.id = false
    ∧ (evalWithValues eff monitor campaign clock s cv ev ri ii).state.state
        = .IN_ALARM
    ∧ al = builtAlarm monitor campaign
        (computeNewState eff monitor campaign clock s cv ev ri).1 (eff.ids ii) := by
  rw [evalWithValues_alarm] at hal
  by_cases hcond : ((computeNewState eff monitor campaign clock s cv ev ri).1.state
      = .IN_ALARM ∧ monIsInAlarmB s monitor.id = false)
  · rw [if_pos hcond] at hal
    injection hal with hal
    exact ⟨hcond.2, by rw [evalWithValues_state]; exact hcond.1, hal.symm⟩
  · rw [if_neg hcond] at hal
    cases hal

/-- C1 amended: the at-most-one-active-alarm invariant holds for every run
of engine operations from an empty record store as long as no bare
`evaluateMonitor` call occurs (batch evaluations, resolutions and
dismissals only, with fresh uuids) — the counterexample shows bare
evaluations break it.  In any store satisfying the invariant, an alarm is
created exactly on a transition of the stored monitor state into
`IN_ALARM`; under the invariant, the stored state not being in alarm
implies no active alarm for the monitor exists, and the created alarm is
active and tagged with the monitor's id. -/
theorem active_alarm_amended :
    (∀ (s0 : Store) (ops : List EngineOp), s0.alarms = [] →
      s0.monitorStates = [] → GoodOps s0 ops →
      (∀ op ∈ ops, op.isBareEval = false) →
      ∀ m : String, activeCount (runOps s0 ops) m ≤ 1)
    ∧ (∀ (eff : Eff) (monitor : Monitor) (campaign : Campaign) (clock : Clock)
        (s : Store) (ri ii : ℕ) (al : Alarm), Inv s →
        (evaluateMonitor eff monitor campaign clock s ri ii).alarm = some al →
        monIsInAlarmB s monitor.id = false
        ∧ (evaluateMonitor eff monitor campaign clock s ri ii).state.state
            = .IN_ALARM
        ∧ activeCount s monitor.id = 0
        ∧ al.state = .ACTIVE ∧ al.monitorId = monitor.id) := by
  constructor
  · intro s0 ops ha hm hg hnb m
    exact ((inv_runOps s0 ops hg hnb (inv_of_empty s0 ha hm)).2.2 m).1
  · intro eff monitor campaign clock s ri ii al hInv hal
    have hgen := evaluateMonitor_genval eff monitor campaign clock s ri ii
      _ _ _ _ rfl rfl
    rw [hgen] at hal
    obtain ⟨h1, h2, h3⟩ := evalWithValues_alarm_some _ _ _ _ _ _ _ _ _ _ hal
    subst h3
    refine ⟨h1, ?_, (hInv.2.2 monitor.id).2 h1, rfl, rfl⟩
    rw [hgen]
    exact h2

/-- The amended invariant theorem at a concrete run (one dismissal from the
empty store) and a concrete alarm-creating evaluation. -/
theorem active_alarm_amended_witness :
    (activeCount (runOps emptyStore [EngineOp.dismiss "b" "t1"]) "m" ≤ 1)
    ∧ (monIsInAlarmB emptyStore cpaMonitor.id = false
      ∧ (evaluateMonitor (effA 0 "a1") cpaMonitor campaignC1 (clockAt "t1")
          emptyStore 0 0).state.state = .IN_ALARM
      ∧ activeCount emptyStore cpaMonitor.id = 0
      ∧ alFlip1.state = .ACTIVE ∧ alFlip1.monitorId = cpaMonitor.id) :=
  ⟨active_alarm_amended.1 emptyStore [EngineOp.dismiss "b" "t1"] rfl rfl
      (GoodOps.cons emptyStore _ [] trivial (GoodOps.nil _)) (by decide) "m",
    active_alarm_amended.2 (effA 0 "a1") cpaMonitor campaignC1 (clockAt "t1")
      emptyStore 0 0 alFlip1 (inv_of_empty emptyStore rfl rfl) evalFlip1_alarm⟩

/-- A batch iteration of a different monitor does not revive the active
count of a monitor. -/
theorem step_count_zero (eff : Eff) (campaign : Campaign) (clock : Clock)
    (A : List String) (hinj : Function.Injective eff.ids)
    (hA : ∀ j, eff.ids j ∉ A) (acc : BatchAcc) (w : Monitor)
    (hInv : Inv acc.store) (hids : IdsOK A eff acc.store acc.ii)
    (x : String) (hx : ¬w.id = x)
    (hcnt0 : activeCount acc.store x = 0) :
    activeCount (stepMonitor eff campaign clock acc w).store x = 0 := by
  by_cases hen : w.enabled = false
  · unfold stepMonitor
    rw [if_pos hen]
    exact hcnt0
  · have hen' : w.enabled = true := by
      cases hwe : w.enabled
      · exact absurd hwe hen
      · rfl
    have hfresh : eff.ids acc.ii ∉ acc.store.alarms.map (fun a : Alarm => a.id) := by
      intro hmem
      rcases hids _ hmem with h1 | ⟨j, hj, hje⟩
      · exact hA acc.ii h1
      · have := hinj hje
        omega
    obtain ⟨hms, hmv, hii, hcases⟩ :=
      stepMonitor_cases eff campaign clock w acc hen' hInv.1 hfresh
    have hxw : ¬x = w.id := fun h => hx h.symm
    rcases hcases with ⟨-, halarms, -, -⟩ | ⟨-, -, halarms, -, -⟩
      | ⟨-, -, halarms, -, -⟩
    · unfold activeCount
      rw [halarms, filter_map_autoResolveUpd_other _ _ _ _ hxw]
      exact hcnt0
    · unfold activeCount
      rw [halarms]
      exact hcnt0
    · have hbmid : (builtAlarm w campaign (evaluateMonitor eff w campaign clock
          acc.store acc.ri acc.ii).state (eff.ids acc.ii)).monitorId = w.id := rfl
      unfold activeCount
      rw [halarms, List.filter_append, List.filter_cons,
        if_neg (by simp [hbmid]; exact fun h => absurd h hx),
        List.filter_nil, List.append_nil]
      exact hcnt0

/-- A batch iteration of a different monitor keeps an alarm of this monitor
untouched in the store. -/
theorem step_mem_keep (eff : Eff) (campaign : Campaign) (clock : Clock)
    (A : List String) (hinj : Function.Injective eff.ids)
    (hA : ∀ j, eff.ids j ∉ A) (acc : BatchAcc) (w : Monitor)
    (hInv : Inv acc.store) (hids : IdsOK A eff acc.store acc.ii)
    (x : String) (hx : ¬w.id = x) (b : Alarm)
    (hbmem : b ∈ acc.store.alarms) (hbx : b.monitorId = x) :
    b ∈ (stepMonitor eff campaign clock acc w).store.alarms := by
  by_cases hen : w.enabled = false
  · unfold stepMonitor
    rw [if_pos hen]
    exact hbmem
  · have hen' : w.enabled = true := by
      cases hwe : w.enabled
      · exact absurd hwe hen
      · rfl
    have hfresh : eff.ids acc.ii ∉ acc.store.alarms.map (fun a : Alarm => a.id) := by
      intro hmem
      rcases hids _ hmem with h1 | ⟨j, hj, hje⟩
      · exact hA acc.ii h1
      · have := hinj hje
        omega
    obtain ⟨hms, hmv, hii, hcases⟩ :=
      stepMonitor_cases eff campaign clock w acc hen' hInv.1 hfresh
    rcases hcases with ⟨-, halarms, -, -⟩ | ⟨-, -, halarms, -, -⟩
      | ⟨-, -, halarms, -, -⟩
    · rw [halarms]
      refine List.mem_map.mpr ⟨b, hbmem, ?_⟩
      exact autoResolveUpd_neg _ _ _ (fun h => hx (hbx ▸ h.1.symm))
    · rw [halarms]
      exact hbmem
    · rw [halarms]
      exact List.mem_append_left _ hbmem

/-- The tail of a batch run over other monitors keeps a monitor's active
count at zero. -/
theorem foldSteps_count_zero (eff : Eff) (campaign : Campaign) (clock : Clock)
    (A : List String) (hinj : Function.Injective eff.ids)
    (hA : ∀ j, eff.ids j ∉ A) (L : List Monitor) (acc : BatchAcc)
    (hInv : Inv acc.store) (hids : IdsOK A eff acc.store acc.ii)
    (x : String) (hL : ∀ w ∈ L, ¬w.id = x)
    (hcnt0 : activeCount acc.store x = 0) :
    activeCount (L.foldl (stepMonitor eff campaign clock) acc).store x = 0 := by
  induction L generalizing acc with
  | nil => exact hcnt0
  | cons w L ih =>
    simp only [List.foldl_cons]
    obtain ⟨g1, g2, -⟩ := inv_stepMonitor eff campaign clock A hinj hA acc w
      hInv hids
    exact ih (stepMonitor eff campaign clock acc w) g1 g2
      (fun v hv => hL v (List.mem_cons_of_mem w hv))
      (step_count_zero eff campaign clock A hinj hA acc w hInv hids x
        (hL w (List.mem_cons_self w L)) hcnt0)

/-- The tail of a batch run over other monitors keeps a monitor's alarms in
the store. -/
theorem foldSteps_mem_keep (eff : Eff) (campaign : Campaign) (clock : Clock)
    (A : List String) (hinj : Function.Injective eff.ids)
    (hA : ∀ j, eff.ids j ∉ A) (L : List Monitor) (acc : BatchAcc)
    (hInv : Inv acc.store) (hids : IdsOK A eff acc.store acc.ii)
    (x : String) (hL : ∀ w ∈ L, ¬w.id = x) (b : Alarm)
    (hbmem : b ∈ acc.store.alarms) (hbx : b.monitorId = x) :
    b ∈ (L.foldl (stepMonitor eff campaign clock) acc).store.alarms := by
  induction L generalizing acc with
  | nil => exact hbmem
  | cons w L ih =>
    simp only [List.foldl_cons]
    obtain ⟨g1, g2, -⟩ := inv_stepMonitor eff campaign clock A hinj hA acc w
      hInv hids
    exact ih (stepMonitor eff campaign clock acc w) g1 g2
      (fun v hv => hL v (List.mem_cons_of_mem w hv))
      (step_mem_keep eff campaign clock A hinj hA acc w hInv hids x
        (hL w (List.mem_cons_self w L)) b hbmem hbx)

/-- C4: in a batch run whose uuid stream is injective and fresh and whose
store satisfies the engine invariant, when the monitor `m` in the list
comes back OK, every alarm of `m` that was active in the store right before
`m`'s evaluation reappears auto-resolved (state `RESOLVED`,
`resolutionMethod = AUTO_RESOLVED`, `resolvedAt` set to the evaluation
time) in the final store, and no active alarm of `m` remains after the
batch completes (the monitors after `m` carry other ids). -/
theorem auto_resolve_completeness (eff : Eff) (campaign : Campaign)
    (clock : Clock) (s : Store) (ri ii : ℕ) (pre post : List Monitor)
    (m : Monitor) (hen : m.enabled = true) (hInv : Inv s)
    (hinj : Function.Injective eff.ids)
    (hfr : ∀ j, eff.ids j ∉ s.alarms.map (fun a : Alarm => a.id))
    (hpost : ∀ w ∈ post, ¬w.id = m.id)
    (hOK : (evaluateMonitor eff m campaign clock
        (List.foldl (stepMonitor eff campaign clock) ⟨[], [], s, ri, ii⟩ pre).store
        (List.foldl (stepMonitor eff campaign clock) ⟨[], [], s, ri, ii⟩ pre).ri
        (List.foldl (stepMonitor eff campaign clock) ⟨[], [], s, ri, ii⟩
          pre).ii).state.state = .OK) :
    (∀ a ∈ (List.foldl (stepMonitor eff campaign clock) ⟨[], [], s, ri, ii⟩
        pre).store.alarms,
      a.monitorId = m.id → a.state = .ACTIVE →
      resolveAlarmUpd .AUTO_RESOLVED clock.nowIso a
        ∈ (evaluateAllMonitors eff campaign (pre ++ m :: post) clock s ri
            ii).store.alarms)
    ∧ activeCount
        (evaluateAllMonitors eff campaign (pre ++ m :: post) clock s ri ii).store
        m.id = 0
    ∧ (∀ (method : ResolutionMethod) (now : String) (a : Alarm),
        (resolveAlarmUpd method now a).state = .RESOLVED
        ∧ (resolveAlarmUpd method now a).resolvedAt = some now
        ∧ (resolveAlarmUpd method now a).resolutionMethod = some method) := by
  have hA := hfr
  obtain ⟨hInv1, hids1, -⟩ := inv_foldSteps eff campaign clock
    (s.alarms.map (fun a : Alarm => a.id)) hinj hA pre ⟨[], [], s, ri, ii⟩
    hInv (fun _ hx => Or.inl hx)
  set acc1 := List.foldl (stepMonitor eff campaign clock) ⟨[], [], s, ri, ii⟩ pre
    with hacc1
  have hfresh : eff.ids acc1.ii ∉ acc1.store.alarms.map (fun a : Alarm => a.id) := by
    intro hmem
    rcases hids1 _ hmem with h1 | ⟨j, hj, hje⟩
    · exact hA acc1.ii h1
    · have := hinj hje
      omega
  obtain ⟨hms, hmv, hii, hcases⟩ :=
    stepMonitor_cases eff campaign clock m acc1 hen hInv1.1 hfresh
  rcases hcases with ⟨-, halarms, -, -⟩ | ⟨hia, -, -, -, -⟩ | ⟨hia, -, -, -, -⟩
  rotate_left
  · rw [hOK] at hia
    cases hia
  · rw [hOK] at hia
    cases hia
  · have hstep0 : activeCount (stepMonitor eff campaign clock acc1 m).store
        m.id = 0 := by
      unfold activeCount
      rw [halarms, filter_map_autoResolveUpd_self]
      rfl
    have hbatch : evaluateAllMonitors eff campaign (pre ++ m :: post) clock s ri ii
        = List.foldl (stepMonitor eff campaign clock)
            (stepMonitor eff campaign clock acc1 m) post := by
      unfold evaluateAllMonitors
      rw [List.foldl_append, List.foldl_cons]
    obtain ⟨g1, g2, -⟩ := inv_stepMonitor eff campaign clock
      (s.alarms.map (fun a : Alarm => a.id)) hinj hA acc1 m hInv1 hids1
    refine ⟨?_, ?_, fun method now a => ⟨rfl, rfl, rfl⟩⟩
    · intro a hamem haid hast
      have hmem1 : resolveAlarmUpd .AUTO_RESOLVED clock.nowIso a
          ∈ (stepMonitor eff campaign clock acc1 m).store.alarms := by
        rw [halarms]
        refine List.mem_map.mpr ⟨a, hamem, ?_⟩
        exact autoResolveUpd_pos _ _ _ ⟨haid, hast⟩
      rw [hbatch]
      exact foldSteps_mem_keep eff campaign clock
        (s.alarms.map (fun a : Alarm => a.id)) hinj hA post
        (stepMonitor eff campaign clock acc1 m) g1 g2 m.id hpost
        (resolveAlarmUpd .AUTO_RESOLVED clock.nowIso a) hmem1 haid
    · rw [hbatch]
      exact foldSteps_count_zero eff campaign clock
        (s.alarms.map (fun a : Alarm => a.id)) hinj hA post
        (stepMonitor eff campaign clock acc1 m) g1 g2 m.id hpost hstep0

/-- The engine reads a zero current CPA value under the `natId` streams. -/
theorem genCur_c1_cpa_effNat (iso : String) (ri : ℕ) :
    generateCurrentMetricValue (effNat 0) campaignC1 "cpa" 0 (clockAt iso) ri
      = (0, ri + 1) := by
  have h456 : charCodeSum ("cpa" ++ "c1") = 456 := by decide
  norm_num [generateCurrentMetricValue, generateValue, getHourMultiplier,
    getDayMultiplier, shouldGenerateAnomaly, h456, isB2BCampaign, effNat,
    clockAt, campaignC1]

/-- Expected CPA value under the `natId` streams with zero random draws. -/
theorem genExp_c1_cpa_effNat (ri : ℕ) :
    generateExpectedValue (effNat 0) campaignC1 "cpa" ri = (27, ri + 1) := by
  have hb : baselineValue campaignC1 "cpa" = 30 := by decide
  norm_num [generateExpectedValue, hb, effNat]

/-- The composite CPA monitor evaluates to OK on `storeC4` (one breach of
the required two on the empty history). -/
theorem evalC4_state_ok :
    (evaluateMonitor (effNat 0) cpaCompositeMonitor campaignC1 (clockAt "t1")
      storeC4 0 0).state.state = .OK := by
  rw [evaluateMonitor_genval (effNat 0) cpaCompositeMonitor campaignC1
    (clockAt "t1") storeC4 0 0 0 27 (0 + 1) (0 + 1 + 1)
    (genCur_c1_cpa_effNat "t1" 0) (genExp_c1_cpa_effNat (0 + 1))]
  rw [evalWithValues_state, computeNewState_c1_comp_empty _ _ _ _ rfl]

/-- The `natId` uuid stream is injective. -/
theorem natId_injective : Function.Injective natId := by
  intro a b h
  have h2 := congrArg (fun s : String => s.data.length) h
  simpa [natId] using h2

/-- No `natId` uuid collides with the alarm id `"b"`. -/
theorem natId_ne_b (j : ℕ) : ¬natId j = "b" := by
  intro h
  have h2 : (natId j).data = ("b" : String).data := congrArg String.data h
  rw [show (natId j).data = List.replicate j (Char.ofNat 97) from rfl,
    show ("b" : String).data = [Char.ofNat 98] from rfl] at h2
  cases j with
  | zero => exact List.noConfusion h2
  | succ n =>
    rw [List.replicate_succ] at h2
    injection h2 with h3 h4
    exact absurd h3 (by decide)

/-- `storeC4` satisfies the engine invariant. -/
theorem inv_storeC4 : Inv storeC4 := by
  refine ⟨by decide, by decide, fun m => ?_⟩
  by_cases hm : m = "m"
  · subst hm
    refine ⟨by decide, fun hmon => ?_⟩
    rw [show monIsInAlarmB storeC4 "m" = true from by decide] at hmon
    cases hmon
  · have hc : activeCount storeC4 m = 0 := by
      unfold activeCount
      rw [show storeC4.alarms = [alarmB] from rfl, List.filter_cons,
        if_neg (by simp [alarmB]; exact fun h => hm h.symm)]
      rfl
    exact ⟨by omega, fun _ => hc⟩

/-- The auto-resolve theorem at a concrete batch: one composite monitor over
`storeC4`, which evaluates to OK and auto-resolves the active alarm
`alarmB`. -/
theorem auto_resolve_completeness_witness :
    (∀ a ∈ (List.foldl (stepMonitor (effNat 0) campaignC1 (clockAt "t1"))
        ⟨[], [], storeC4, 0, 0⟩ []).store.alarms,
      a.monitorId = cpaCompositeMonitor.id → a.state = .ACTIVE →
      resolveAlarmUpd .AUTO_RESOLVED (clockAt "t1").nowIso a
        ∈ (evaluateAllMonitors (effNat 0) campaignC1
            ([] ++ cpaCompositeMonitor :: []) (clockAt "t1") storeC4 0
            0).store.alarms)
    ∧ activeCount (evaluateAllMonitors (effNat 0) campaignC1
        ([] ++ cpaCompositeMonitor :: []) (clockAt "t1") storeC4 0 0).store
        cpaCompositeMonitor.id = 0
    ∧ (∀ (method : ResolutionMethod) (now : String) (a : Alarm),
        (resolveAlarmUpd method now a).state = .RESOLVED
        ∧ (resolveAlarmUpd method now a).resolvedAt = some now
        ∧ (resolveAlarmUpd method now a).resolutionMethod = some method) :=
  auto_resolve_completeness (effNat 0) campaignC1 (clockAt "t1") storeC4 0 0
    [] [] cpaCompositeMonitor rfl inv_storeC4 natId_injective
    (by
      intro j hmem
      simp only [storeC4, alarmB, List.map_cons, List.map_nil,
        List.mem_singleton] at hmem
      exact natId_ne_b j hmem)
    (fun w hw => absurd hw (List.not_mem_nil w))
    evalC4_state_ok

/-- The impact rules at a concrete campaign and a falling CPA deviation. -/
theorem calculateEstimatedImpact_rules_witness :
    calculateEstimatedImpact campaignC1 cpaMonitor (-40) =
      (if 0 < (-40 : ℚ) then campaignC1.dailyBudget * |(-40 : ℚ)| / 100 else 0)
    ∧ 0 ≤ calculateEstimatedImpact campaignC1 cpaMonitor (-40) :=
  ⟨(calculateEstimatedImpact_rules.1 campaignC1 cpaMonitor (-40)
      (by norm_num [campaignC1])).1 rfl,
    (calculateEstimatedImpact_rules.1 campaignC1 cpaMonitor (-40)
      (by norm_num [campaignC1])).2.2.2.2.2.2⟩

/-- The no-op theorem at a store whose only alarm carries a different id. -/
theorem dismiss_resolve_nonactive_noop_witness :
    dismissAlarm storeOneActive "zz" "t1" = storeOneActive
    ∧ resolveAlarm storeOneActive "zz" .AUTO_RESOLVED "t1" = storeOneActive :=
  dismiss_resolve_nonactive_noop.1 storeOneActive "zz" .AUTO_RESOLVED "t1"
    (by decide)

end MediaNet
